import Mathlib

/-!
Shallow embedding of src/Dist/peanut.py (the PeanutScript language: lexer,
recursive-descent parser, tree-walking interpreter) and proofs about the
claims of its specification.

Modelling conventions, chosen to mirror the Python source faithfully:

* Python integers are `Int`.  IEEE-754 doubles are modelled as exact
  rationals (`Rat`); the rounding of `float` arithmetic is elided.  No claim
  depends on float rounding.
* `Position` objects (index / line / column / filename / source text) are
  elided: no claim mentions them.  Errors are modelled as (kind, details);
  the caret rendering and traceback of `Error.as_string` are elided.
* Python object identity matters for `Array.elements` (lists are aliased by
  `Array.copy`) and for symbol tables (child tables hold references to
  parents, and the module-level `locked_symbol_table` / `global_symbol_table`
  are mutated in place).  Both live in an explicit `Store`: array element
  lists and symbol tables are numbered cells, and values/contexts hold cell
  indices.  The locked table is cell 0 and the global table is cell 1.
* Uncaught Python exceptions (`AttributeError`, `TypeError`, `IndexError`,
  `raise Exception`) are modelled by an explicit `Crash` outcome.  Built-ins
  that perform host I/O (`input`, `time`, `cls`, `run`, `use`, `read`) and
  the float-library call in `formatNumber` complete in Python but are outside
  this embedding; they are modelled by distinguished `Crash` constructors so
  that no theorem silently covers them.
* All recursion (lexing, parsing, evaluation, parent-chain lookup) is fueled
  with an explicit `Nat`; running out of fuel is the distinguished outcome
  `Fault.nofuel`, never an error of the modelled program.
* `repr` of AST nodes that define no `__repr__` in the source is the Python
  default `<peanut.Cls object at 0x...>`; the address is elided.  The only
  consumer is a substring test for "INT" / "STRING" / "FLOAT", which no
  address (lowercase hex) can satisfy.
-/

namespace PeanutEmbed

/-- Payload of a Python-level number held by a `Number` value or a token: an
int, a float (modelled as an exact rational), or - via
`BaseFunction.populate_args`, which wraps default-literal text in
`Number(...)` - a Python `str`. -/
inductive PyNum where
  | i (n : Int)
  | f (q : Rat)
  | s (v : String)
  | inf
  | ninf
deriving DecidableEq, Repr

/-- Token kinds, named as the `TT_*` constants of the source. -/
inductive TokType where
  | INT | FLOAT | STRING | IDENTIFIER | KEYWORD
  | PLUS | MINUS | MUL | DIV | POW | MOD | EQ
  | LPAREN | RPAREN | LSQUARE | RSQUARE | LCURLY | RCURLY
  | EE | NE | LT | GT | LTE | GTE
  | COMMA | COLON | ARROW | QUESTION | NEWLINE | EOF
deriving DecidableEq, Repr

/-- A token's optional value: an int, a float, or an identifier / keyword /
string lexeme. -/
inductive TokVal where
  | i (n : Int)
  | f (q : Rat)
  | s (v : String)
deriving DecidableEq, Repr

/-- `Token`: kind and optional value (positions elided). -/
structure Token where
  ty : TokType
  value : Option TokVal := none
deriving DecidableEq, Repr

/-- The string the Python `TT_*` constant holds, used by `Token.__repr__`. -/
def TokType.str : TokType → String
  | .INT => "INT" | .FLOAT => "FLOAT" | .STRING => "STRING"
  | .IDENTIFIER => "IDENTIFIER" | .KEYWORD => "KEYWORD"
  | .PLUS => "PLUS" | .MINUS => "MINUS" | .MUL => "MUL" | .DIV => "DIV"
  | .POW => "POW" | .MOD => "MOD" | .EQ => "EQ"
  | .LPAREN => "LPAREN" | .RPAREN => "RPAREN" | .LSQUARE => "LSQUARE"
  | .RSQUARE => "RSQUARE" | .LCURLY => "LCURLY" | .RCURLY => "RCURLY"
  | .EE => "EE" | .NE => "NE" | .LT => "LT" | .GT => "GT"
  | .LTE => "LTE" | .GTE => "GTE"
  | .COMMA => "COMMA" | .COLON => "COLON" | .ARROW => "ARROW"
  | .QUESTION => "QUESTION" | .NEWLINE => "NEWLINE" | .EOF => "EOF"

/-- Python truthiness of a token value (`if self.value:` in
`Token.__repr__`): None, 0, 0.0 and the empty string are falsy. -/
def TokVal.truthy : TokVal → Bool
  | .i n => n ≠ 0
  | .f q => q ≠ 0
  | .s v => v ≠ ""

/-- Python `str()` of a token value.  For floats the embedding renders the
exact rational; no claim depends on float formatting, and the only consumer
that matters (`Parser.expression`'s strict-type check) tests for the
uppercase substrings "INT" / "STRING" / "FLOAT" which neither rendering can
introduce. -/
def TokVal.str : TokVal → String
  | .i n => toString n
  | .f q => toString q
  | .s v => v

/-- `Token.__repr__`: `TYPE:value` when the value is truthy, else `TYPE`. -/
def Token.repr (t : Token) : String :=
  match t.value with
  | some v => if v.truthy then t.ty.str ++ ":" ++ v.str else t.ty.str
  | none => t.ty.str

/-- `Token.matches(TT_KEYWORD, kw)`. -/
def Token.isKw (t : Token) (kw : String) : Bool :=
  t.ty = .KEYWORD ∧ t.value = some (.s kw)

/-- The reserved keywords of the lexer (`KEYWORDS`). -/
def KEYWORDS : List String :=
  ["var", "let", "scoped", "strict", "and", "or", "not", "if", "then",
   "elif", "else", "for", "until", "step", "while", "function", "end",
   "return", "continue", "break"]

/-- The type names recognized after `strict` (`TYPES`). -/
def TYPES : List String := ["string", "int", "float"]

/-- Replace every (leftmost, non-overlapping) occurrence of `pat` in a char
list; the fuel is bounded by the list length (callers pass nonempty
patterns). -/
def replaceAux (pat rep : List Char) : Nat → List Char → List Char
  | 0, s => s
  | _ + 1, [] => []
  | fuel + 1, c :: rest =>
    if pat.isPrefixOf (c :: rest) then
      rep ++ replaceAux pat rep fuel ((c :: rest).drop pat.length)
    else c :: replaceAux pat rep fuel rest

/-- Python `str.replace` (list-based). -/
def pyReplace (s pat rep : String) : String :=
  ⟨replaceAux pat.data rep.data (s.data.length + 1) s.data⟩

/-- Python `sep.join` (list-based). -/
def pyJoin (sep : String) : List String → String
  | [] => ""
  | x :: xs => xs.foldl (fun a b => a ++ sep ++ b) x


/-- AST node variants, one constructor per node class of the source.
`varAssign` / `scopedAssign` with a `none` value model the parser's use of
the `Number.null` singleton as the no-initializer sentinel (the interpreter
tests it by object identity). -/
inductive PNode where
  | number (tok : Token)
  | strNode (tok : Token)
  | arrayNode (elems : List PNode)
  | varAssign (nameTok : Token) (value : Option PNode)
  | scopedAssign (nameTok : Token) (value : Option PNode)
  | strictAssign (nameTok : Token) (value : PNode) (ty : String)
  | access (nameTok : Token)
  | binOp (left : PNode) (op : Token) (right : PNode)
  | unOp (op : Token) (node : PNode)
  | ifNode (cases : List (PNode × PNode × Bool)) (elseCase : Option (PNode × Bool))
  | forNode (nameTok : Token) (startN : PNode) (endN : PNode)
      (stepN : Option PNode) (body : PNode) (retNull : Bool)
  | whileNode (cond : PNode) (body : PNode) (retNull : Bool)
  | funcDef (nameTok : Option Token) (argNames : List Token)
      (argDefaults : List Token) (body : PNode) (autoRet : Bool)
  | callNode (callee : PNode) (args : List PNode)
  | returnNode (expr : Option PNode)
  | continueNode
  | breakNode

/-- Python `repr` of a node.  Only `NumberNode`, `StringNode`,
`BinaryOpNode` and `UnaryOpNode` define `__repr__`; the rest print the
default `<peanut.Cls object at 0x...>` (address elided, see header). -/
def PNode.reprS : PNode → String
  | .number t => t.repr
  | .strNode t => t.repr
  | .binOp l op r => "(" ++ l.reprS ++ ", " ++ op.repr ++ ", " ++ r.reprS ++ ")"
  | .unOp op n => "(" ++ op.repr ++ ", " ++ n.reprS ++ ")"
  | .arrayNode _ => "<peanut.ArrayNode object>"
  | .varAssign _ _ => "<peanut.VarAssignNode object>"
  | .scopedAssign _ _ => "<peanut.ScopedAssignNode object>"
  | .strictAssign _ _ _ => "<peanut.StrictAssignNode object>"
  | .access _ => "<peanut.AccessNode object>"
  | .ifNode _ _ => "<peanut.IfNode object>"
  | .forNode _ _ _ _ _ _ => "<peanut.ForNode object>"
  | .whileNode _ _ _ => "<peanut.WhileNode object>"
  | .funcDef _ _ _ _ _ => "<peanut.FuncDefNode object>"
  | .callNode _ _ => "<peanut.CallNode object>"
  | .returnNode _ => "<peanut.ReturnNode object>"
  | .continueNode => "<peanut.ContinueNode object>"
  | .breakNode => "<peanut.BreakNode object>"

/-- Execution context (`Context`): display name, parent context, and the
store cell of its symbol table (`parent_entry_pos` elided with positions). -/
inductive Ctx where
  | mk (displayName : String) (parent : Option Ctx) (tableRef : Nat)

def Ctx.parent : Ctx → Option Ctx
  | .mk _ p _ => p

def Ctx.tableRef : Ctx → Nat
  | .mk _ _ r => r

def Ctx.displayName : Ctx → String
  | .mk d _ _ => d

mutual
/-- Runtime values.  `arr` holds the store cell of its (aliased) element
list.  `funcV` / `builtin` carry the context reference `Value.set_context`
maintains (`none` until one is attached); per-value positions are elided. -/
inductive Value where
  | number (v : PyNum)
  | strV (p : StrPayload)
  | arr (ref : Nat)
  | boolV (v : Int)
  | funcV (name : Option String) (body : PNode) (argNames : List String)
      (argDefaults : List Token) (autoRet : Bool) (ctx : Option Ctx)
  | builtin (name : String) (ctx : Option Ctx)

/-- What a peanut `String` holds.  The source's `execute_print` constructs
`String(v)` where `v` is a runtime *value* (and `String(None)` is reachable),
so the payload is not always a Python `str`. -/
inductive StrPayload where
  | s (v : String)
  | obj (v : Value)
  | pyNone
end

/-- The no-return sentinel `String.no_return`. -/
def noReturnStr : String := "No Return Value, ignore this!"

def noReturn : Value := .strV (.s noReturnStr)

/-- Error kinds with their details; positions and tracebacks elided. -/
inductive PErr where
  | illegalChar (details : String)
  | expectedChar (details : String)
  | invalidStx (details : String)
  | rtErr (details : String)
deriving DecidableEq, Repr

/-- An uncaught Python exception or an unmodelled effect (see header). -/
inductive Crash where
  | attrErr (msg : String)
  | typeErr (msg : String)
  | indexErr
  | valueErr (msg : String)
  | exn (msg : String)
  | ioUnmodelled (name : String)
  | unmodelled (msg : String)
deriving DecidableEq, Repr

/-- The outcome channel of every fueled function of the embedding. -/
inductive Fault where
  | crash (c : Crash)
  | nofuel
deriving DecidableEq, Repr

abbrev Res (α : Type) := Except Fault α

/-- A symbol-table entry.  The source keeps five parallel dicts
(`symbols`, `symbols_should_scope`, `symbols_are_vars`,
`symbols_are_strict_vars`, `var_types`); `SymbolTable.set` always writes all
five for the same key, so one record per key is equivalent.  The stored
value is an `Option` because Python can store `None`. -/
structure TblEntry where
  value : Option Value
  isVar : Bool
  isScoped : Bool
  isStrict : Bool
  ty : Option String

/-- A symbol table: entries plus the store cell of the parent table. -/
structure Tbl where
  entries : List (String × TblEntry)
  parent : Option Nat

/-- The mutable heap: symbol-table cells (locked = 0, global = 1) and array
element-list cells.  Array elements are `Option Value` because the
interpreter can append Python `None` to an element list (a registered child
whose `should_return()` is falsy can have a `None` value). -/
structure Store where
  tables : List Tbl
  arrays : List (List (Option Value))

def Tbl.find (t : Tbl) (name : String) : Option TblEntry :=
  (t.entries.find? (fun e => e.1 = name)).map Prod.snd

def Tbl.setE (t : Tbl) (name : String) (e : TblEntry) : Tbl :=
  if (t.entries.find? (fun x => x.1 = name)).isSome then
    { t with entries := t.entries.map (fun x => if x.1 = name then (name, e) else x) }
  else
    { t with entries := t.entries ++ [(name, e)] }

def Store.tbl (st : Store) (r : Nat) : Option Tbl := st.tables.get? r

def Store.setTbl (st : Store) (r : Nat) (t : Tbl) : Store :=
  { st with tables := st.tables.set r t }

/-- `SymbolTable.set(name, value, is_var, is_scoped, is_strict, type_)` on
the table in cell `r`. -/
def Store.symSet (st : Store) (r : Nat) (name : String) (v : Option Value)
    (isVar isScoped isStrict : Bool) (ty : Option String) : Store :=
  match st.tbl r with
  | some t => st.setTbl r (t.setE name ⟨v, isVar, isScoped, isStrict, ty⟩)
  | none => st

/-- `SymbolTable.get`: look the name up, walking the parent chain.  A stored
Python `None` is returned as `none`, indistinguishable from absence, exactly
as in the source. -/
def Store.symGet (st : Store) (fuel : Nat) (r : Nat) (name : String) :
    Option Value :=
  match fuel with
  | 0 => none
  | fuel + 1 =>
    match st.tbl r with
    | none => none
    | some t =>
      match t.find name with
      | some e =>
        match e.value with
        | some v => some v
        | none =>
          match t.parent with
          | some p => st.symGet fuel p name
          | none => none
      | none =>
        match t.parent with
        | some p => st.symGet fuel p name
        | none => none

/-- Result of `SymbolTable.getScope`: the source returns the stored Bool,
or - when the name is absent and a parent exists - the *value* that
`parent.get(name)` finds (a slip in the source: it calls `get`, not
`getScope`), or Python `None`. -/
def Store.getScope (st : Store) (fuel : Nat) (r : Nat) (name : String) :
    Option (Sum Bool Value) :=
  match st.tbl r with
  | none => none
  | some t =>
    match t.find name with
    | some e => some (.inl e.isScoped)
    | none =>
      match t.parent with
      | some p => (st.symGet fuel p name).map Sum.inr
      | none => none

/-- `SymbolTable.isStrict` on the global table (which has no parent, so the
parent-`get` slip of the source cannot fire there). -/
def Store.isStrictGlobal (st : Store) (name : String) : Bool :=
  match st.tbl 1 with
  | some t =>
    match t.find name with
    | some e => e.isStrict
    | none => false
  | none => false

/-- `SymbolTable.getType` on the global table. -/
def Store.getTypeGlobal (st : Store) (name : String) : Option String :=
  match st.tbl 1 with
  | some t =>
    match t.find name with
    | some e => e.ty
    | none => none
  | none => none

/-- Allocate a fresh array element-list cell (a `Array(elements)` call on a
fresh Python list). -/
def Store.allocArray (st : Store) (elems : List (Option Value)) : Nat × Store :=
  (st.arrays.length, { st with arrays := st.arrays ++ [elems] })

def Store.getArr (st : Store) (r : Nat) : Option (List (Option Value)) :=
  st.arrays.get? r

def Store.setArr (st : Store) (r : Nat) (elems : List (Option Value)) : Store :=
  { st with arrays := st.arrays.set r elems }

/-- Allocate a fresh symbol-table cell. -/
def Store.allocTbl (st : Store) (t : Tbl) : Nat × Store :=
  (st.tables.length, { st with tables := st.tables ++ [t] })

/-- Python truthiness of a runtime value when used in a host-level boolean
position (`if not value:` in `visit_AccessNode`, the `or` chains of
`Function.execute`).  Only the `String` class defines `__len__`; all other
value classes are truthy objects.  `len` of a `String` wrapping a non-`str`
payload raises `TypeError`. -/
def pyTruthy : Value → Except Crash Bool
  | .strV (.s s) => .ok (s ≠ "")
  | .strV (.obj _) => .error (.typeErr "len() of String wrapping a non-str")
  | .strV .pyNone => .error (.typeErr "len() of String wrapping None")
  | _ => .ok true

def pyTruthyOpt : Option Value → Except Crash Bool
  | none => .ok false
  | some v => pyTruthy v

/-- `Value.copy()` as each class defines it: payloads are duplicated but an
`Array` copy shares its `elements` list (the source passes `self.elements`
to the constructor), so the cell reference is unchanged. -/
def Value.copy (v : Value) : Value := v

/-- `Value.set_context`.  Only function-kind values consume their stored
context (for the execution scope chain), so only they carry it. -/
def Value.setCtx (v : Value) (c : Ctx) : Value :=
  match v with
  | .funcV n b an ad ar _ => .funcV n b an ad ar (some c)
  | .builtin n _ => .builtin n (some c)
  | w => w

/-- `is_true` of each value class.  The base class returns `False`
(`Array`, functions and built-ins inherit it); `String.is_true` calls
`len(self.value)`, which raises for a non-`str` payload. -/
def Value.isTrue : Value → Except Crash Bool
  | .number (.i n) => .ok (n ≠ 0)
  | .number (.f q) => .ok (q ≠ 0)
  | .number (.s v) => .ok (v ≠ "")
  | .number .inf => .ok true
  | .number .ninf => .ok true
  | .strV (.s s) => .ok (s.length > 0)
  | .strV _ => .error (.typeErr "len() of String wrapping a non-str")
  | .boolV b => .ok (b = 1)
  | _ => .ok false

/-- The interpreter's unified result channel (`RTResult`); `warn` and
`to_reverse_count` are never read and elided. -/
structure RTResult where
  value : Option Value := none
  error : Option PErr := none
  funcReturnValue : Option Value := none
  loopShouldContinue : Bool := false
  loopShouldBreak : Bool := false

/-- `RTResult.register`: copy the child's channel state, hand back its
value.  (`res.value` is untouched.) -/
def RTResult.registerFrom (res child : RTResult) : RTResult × Option Value :=
  ({ res with
      error := child.error
      funcReturnValue := child.funcReturnValue
      loopShouldContinue := child.loopShouldContinue
      loopShouldBreak := child.loopShouldBreak },
   child.value)

def RTResult.success (v : Option Value) : RTResult := { value := v }

def RTResult.successReturn (v : Value) : RTResult := { funcReturnValue := some v }

def RTResult.successContinue : RTResult := { loopShouldContinue := true }

def RTResult.successBreak : RTResult := { loopShouldBreak := true }

def RTResult.failure (e : PErr) : RTResult := { error := some e }

/-- `RTResult.should_return()`: `error or func_return_value or continue or
break`.  Python evaluates the *truthiness* of `func_return_value`, so a
returned empty string does not trigger it, and a returned `String` wrapping
a non-`str` payload raises. -/
def RTResult.shouldReturn (r : RTResult) : Except Crash Bool :=
  if r.error.isSome then .ok true
  else do
    let b ← pyTruthyOpt r.funcReturnValue
    pure (b || r.loopShouldContinue || r.loopShouldBreak)

/-- Python `int()` of a number payload: ints unchanged, floats truncated
toward zero, strings parsed (raising `ValueError` when unparsable). -/
def PyNum.toIntE : PyNum → Except Crash Int
  | .inf => .error (.exn "OverflowError: cannot convert float infinity to integer")
  | .ninf => .error (.exn "OverflowError: cannot convert float infinity to integer")
  | .i n => .ok n
  | .f q => .ok (q.num / (q.den : Int))
  | .s v =>
    match v.toInt? with
    | some n => .ok n
    | none => .error (.valueErr "invalid literal for int()")

/-- Python truthiness of a number payload (never raises). -/
def PyNum.truthy : PyNum → Bool
  | .i n => n ≠ 0
  | .f q => q ≠ 0
  | .s v => v ≠ ""
  | .inf => true
  | .ninf => true

/-- Python `x == 0` for a number payload (a str never equals an int). -/
def PyNum.isZero : PyNum → Bool
  | .i n => n = 0
  | .f q => q = 0
  | .s _ => false
  | .inf => false
  | .ninf => false

/-- Python `+` on number payloads: numeric addition, or string
concatenation; mixing kinds raises `TypeError`. -/
def PyNum.add : PyNum → PyNum → Except Crash PyNum
  | .inf, _ => .error (.unmodelled "infinity arithmetic")
  | .ninf, _ => .error (.unmodelled "infinity arithmetic")
  | _, .inf => .error (.unmodelled "infinity arithmetic")
  | _, .ninf => .error (.unmodelled "infinity arithmetic")
  | .i a, .i b => .ok (.i (a + b))
  | .i a, .f b => .ok (.f ((a : Rat) + b))
  | .f a, .i b => .ok (.f (a + (b : Rat)))
  | .f a, .f b => .ok (.f (a + b))
  | .s a, .s b => .ok (.s (a ++ b))
  | _, _ => .error (.typeErr "unsupported operand types for +")

def PyNum.sub : PyNum → PyNum → Except Crash PyNum
  | .inf, _ => .error (.unmodelled "infinity arithmetic")
  | .ninf, _ => .error (.unmodelled "infinity arithmetic")
  | _, .inf => .error (.unmodelled "infinity arithmetic")
  | _, .ninf => .error (.unmodelled "infinity arithmetic")
  | .i a, .i b => .ok (.i (a - b))
  | .i a, .f b => .ok (.f ((a : Rat) - b))
  | .f a, .i b => .ok (.f (a - (b : Rat)))
  | .f a, .f b => .ok (.f (a - b))
  | _, _ => .error (.typeErr "unsupported operand types for -")

/-- Python `*` on number payloads (`str * int` repetition included, since a
`Number` can hold a str). -/
def PyNum.mul : PyNum → PyNum → Except Crash PyNum
  | .inf, _ => .error (.unmodelled "infinity arithmetic")
  | .ninf, _ => .error (.unmodelled "infinity arithmetic")
  | _, .inf => .error (.unmodelled "infinity arithmetic")
  | _, .ninf => .error (.unmodelled "infinity arithmetic")
  | .i a, .i b => .ok (.i (a * b))
  | .i a, .f b => .ok (.f ((a : Rat) * b))
  | .f a, .i b => .ok (.f (a * (b : Rat)))
  | .f a, .f b => .ok (.f (a * b))
  | .s a, .i b => .ok (.s (String.join (List.replicate b.toNat a)))
  | .i a, .s b => .ok (.s (String.join (List.replicate a.toNat b)))
  | _, _ => .error (.typeErr "unsupported operand types for *")

/-- Python `/` on number payloads: true division (ints give floats).
The caller has already excluded a zero divisor. -/
def PyNum.div : PyNum → PyNum → Except Crash PyNum
  | .inf, _ => .error (.unmodelled "infinity arithmetic")
  | .ninf, _ => .error (.unmodelled "infinity arithmetic")
  | _, .inf => .error (.unmodelled "infinity arithmetic")
  | _, .ninf => .error (.unmodelled "infinity arithmetic")
  | .i a, .i b => .ok (.f ((a : Rat) / (b : Rat)))
  | .i a, .f b => .ok (.f ((a : Rat) / b))
  | .f a, .i b => .ok (.f (a / (b : Rat)))
  | .f a, .f b => .ok (.f (a / b))
  | _, _ => .error (.typeErr "unsupported operand types for /")

/-- `self.value - (other.value * floor(self.value / other.value))`, the body
of `Number.modded_by` for a non-zero divisor.  For two ints this is the
floored modulo `a - b * (a.fdiv b)`. -/
def PyNum.modBody : PyNum → PyNum → Except Crash PyNum
  | .inf, _ => .error (.unmodelled "infinity arithmetic")
  | .ninf, _ => .error (.unmodelled "infinity arithmetic")
  | _, .inf => .error (.unmodelled "infinity arithmetic")
  | _, .ninf => .error (.unmodelled "infinity arithmetic")
  | .i a, .i b => .ok (.i (a - b * (Int.fdiv a b)))
  | .i a, .f b => .ok (.f ((a : Rat) - b * (⌊(a : Rat) / b⌋ : Rat)))
  | .f a, .i b => .ok (.f (a - (b : Rat) * (⌊a / (b : Rat)⌋ : Rat)))
  | .f a, .f b => .ok (.f (a - b * (⌊a / b⌋ : Rat)))
  | _, _ => .error (.typeErr "unsupported operand types for %")

/-- Python `**` on number payloads: an int to a negative int gives a float;
a fractional exponent is outside the embedding (can be irrational). -/
def PyNum.pow : PyNum → PyNum → Except Crash PyNum
  | .inf, _ => .error (.unmodelled "infinity arithmetic")
  | .ninf, _ => .error (.unmodelled "infinity arithmetic")
  | _, .inf => .error (.unmodelled "infinity arithmetic")
  | _, .ninf => .error (.unmodelled "infinity arithmetic")
  | .i a, .i b =>
    if b ≥ 0 then .ok (.i (a ^ b.toNat))
    else .ok (.f (((a : Rat) ^ b.toNat)⁻¹))
  | .f a, .i b =>
    if b ≥ 0 then .ok (.f (a ^ b.toNat)) else .ok (.f ((a ^ b.toNat)⁻¹))
  | _, .f _ => .error (.unmodelled "fractional exponent")
  | _, _ => .error (.typeErr "unsupported operand types for **")

/-- Python `==` on number payloads (never raises; cross-kind is `False`
except exact int/float equality). -/
def PyNum.eqB : PyNum → PyNum → Bool
  | .inf, .inf => true
  | .ninf, .ninf => true
  | .inf, _ => false
  | .ninf, _ => false
  | _, .inf => false
  | _, .ninf => false
  | .i a, .i b => a = b
  | .i a, .f b => (a : Rat) = b
  | .f a, .i b => a = (b : Rat)
  | .f a, .f b => a = b
  | .s a, .s b => a = b
  | _, _ => false

/-- Python `<` on number payloads: numeric or lexicographic; mixing a str
with a number raises `TypeError`. -/
def PyNum.ltE : PyNum → PyNum → Except Crash Bool
  | .ninf, .ninf => .ok false
  | .ninf, .i _ => .ok true
  | .ninf, .f _ => .ok true
  | .ninf, .inf => .ok true
  | .inf, .i _ => .ok false
  | .inf, .f _ => .ok false
  | .inf, .inf => .ok false
  | .inf, .ninf => .ok false
  | .i _, .inf => .ok true
  | .f _, .inf => .ok true
  | .i _, .ninf => .ok false
  | .f _, .ninf => .ok false
  | .i a, .i b => .ok (a < b)
  | .i a, .f b => .ok ((a : Rat) < b)
  | .f a, .i b => .ok (a < (b : Rat))
  | .f a, .f b => .ok (a < b)
  | .s a, .s b => .ok (a < b)
  | _, _ => .error (.typeErr "unorderable types")

def PyNum.leE : PyNum → PyNum → Except Crash Bool
  | .ninf, .ninf => .ok true
  | .ninf, .i _ => .ok true
  | .ninf, .f _ => .ok true
  | .ninf, .inf => .ok true
  | .inf, .i _ => .ok false
  | .inf, .f _ => .ok false
  | .inf, .inf => .ok true
  | .inf, .ninf => .ok false
  | .i _, .inf => .ok true
  | .f _, .inf => .ok true
  | .i _, .ninf => .ok false
  | .f _, .ninf => .ok false
  | .i a, .i b => .ok (a ≤ b)
  | .i a, .f b => .ok ((a : Rat) ≤ b)
  | .f a, .i b => .ok (a ≤ (b : Rat))
  | .f a, .f b => .ok (a ≤ b)
  | .s a, .s b => .ok (a ≤ b)
  | _, _ => .error (.typeErr "unorderable types")

/-- Python `a and b` on number payloads: `a` when `a` is falsy, else `b`. -/
def PyNum.pyAnd (a b : PyNum) : PyNum := if a.truthy then b else a

/-- Python `a or b` on number payloads: `a` when `a` is truthy, else `b`. -/
def PyNum.pyOr (a b : PyNum) : PyNum := if a.truthy then a else b

end PeanutEmbed

namespace PeanutEmbed

/-- `str()` of an element of a Python list that may hold `None`. -/
def pyStrOpt (s : String) : Option String → String
  | some r => r
  | none => s

/-- Python `str()` of a runtime value.  `Number`/`Bool` fall back to
`__repr__`; `String.__str__` returns the payload (raising `TypeError` when
it is not a `str`); `Array.__str__` joins the `str` of each element; float
formatting is elided (header). -/
def pyStr (fuel : Nat) (st : Store) (v : Value) : Except Fault String :=
  match fuel with
  | 0 => .error .nofuel
  | fuel + 1 =>
    match v with
    | .number (.i n) => .ok (toString n)
    | .number (.f q) => .ok (toString q)
    | .number (.s w) => .ok w
    | .number .inf => .ok "inf"
    | .number .ninf => .ok "-inf"
    | .strV (.s s) => .ok s
    | .strV _ => .error (.crash (.typeErr "str of String wrapping a non-str"))
    | .boolV b => .ok (if b = 1 then "True" else "False")
    | .funcV name _ _ _ _ _ =>
      .ok ("<function " ++ name.getD "<anonymous>" ++ ">")
    | .builtin name _ => .ok ("<built-in $" ++ name ++ ">")
    | .arr r =>
      match st.getArr r with
      | none => .error (.crash (.unmodelled "dangling array cell"))
      | some elems => do
        let strs ← elems.mapM (fun e =>
          match e with
          | some w => pyStr fuel st w
          | none => pure "None")
        pure (pyJoin ", " strs)

/-- Outcome of a value-class operator method: `(result, error)` as a sum
(`result` an `Option` because `Array.divided_by` can hand back a stored
Python `None`). -/
abbrev OpOut := Except Crash (Sum (Option Value) PErr)

/-- The base class's `illegal_operation` error. -/
def illegalOp : PErr := .rtErr "Illegal operation"

/-- `Number.added_to`. -/
def Number.addedTo (a : PyNum) (other : Option Value) : OpOut :=
  match other with
  | some (.number b) => do let r ← a.add b; pure (.inl (some (.number r)))
  | _ => .ok (.inr illegalOp)

/-- `Number.subtracted_by`. -/
def Number.subtractedBy (a : PyNum) (other : Option Value) : OpOut :=
  match other with
  | some (.number b) => do let r ← a.sub b; pure (.inl (some (.number r)))
  | _ => .ok (.inr illegalOp)

/-- `Number.multiplied_by`. -/
def Number.multipliedBy (a : PyNum) (other : Option Value) : OpOut :=
  match other with
  | some (.number b) => do let r ← a.mul b; pure (.inl (some (.number r)))
  | _ => .ok (.inr illegalOp)

/-- `Number.divided_by`: division by a zero `Number` is a runtime error. -/
def Number.dividedBy (a : PyNum) (other : Option Value) : OpOut :=
  match other with
  | some (.number b) =>
    if b.isZero then .ok (.inr (.rtErr "Division by zero"))
    else do let r ← a.div b; pure (.inl (some (.number r)))
  | _ => .ok (.inr illegalOp)

/-- `Number.modded_by`: modulo by a zero `Number` is a runtime error, else
`self.value - other.value * floor(self.value / other.value)`. -/
def Number.moddedBy (a : PyNum) (other : Option Value) : OpOut :=
  match other with
  | some (.number b) =>
    if b.isZero then .ok (.inr (.rtErr "Division by zero"))
    else do let r ← a.modBody b; pure (.inl (some (.number r)))
  | _ => .ok (.inr illegalOp)

/-- `Number.pow`. -/
def Number.powE (a : PyNum) (other : Option Value) : OpOut :=
  match other with
  | some (.number b) => do let r ← a.pow b; pure (.inl (some (.number r)))
  | _ => .ok (.inr illegalOp)

def boolOf (b : Bool) : Value := .boolV (if b then 1 else 0)

/-- `Number.get_comparison_eq` (cross-kind compares as `Bool(0)`). -/
def Number.cmpEq (a : PyNum) (other : Option Value) : OpOut :=
  match other with
  | some (.number b) => .ok (.inl (some (boolOf (a.eqB b))))
  | _ => .ok (.inl (some (.boolV 0)))

/-- `Number.get_comparison_ne`. -/
def Number.cmpNe (a : PyNum) (other : Option Value) : OpOut :=
  match other with
  | some (.number b) => .ok (.inl (some (boolOf (¬ a.eqB b))))
  | _ => .ok (.inl (some (.boolV 1)))

def Number.cmpLt (a : PyNum) (other : Option Value) : OpOut :=
  match other with
  | some (.number b) => do let r ← a.ltE b; pure (.inl (some (boolOf r)))
  | _ => .ok (.inr illegalOp)

def Number.cmpGt (a : PyNum) (other : Option Value) : OpOut :=
  match other with
  | some (.number b) => do let r ← b.ltE a; pure (.inl (some (boolOf r)))
  | _ => .ok (.inr illegalOp)

def Number.cmpLte (a : PyNum) (other : Option Value) : OpOut :=
  match other with
  | some (.number b) => do let r ← a.leE b; pure (.inl (some (boolOf r)))
  | _ => .ok (.inr illegalOp)

def Number.cmpGte (a : PyNum) (other : Option Value) : OpOut :=
  match other with
  | some (.number b) => do let r ← b.leE a; pure (.inl (some (boolOf r)))
  | _ => .ok (.inr illegalOp)

/-- `Number.anded_by`: `Bool(int(self.value and other.value))`. -/
def Number.andedBy (a : PyNum) (other : Option Value) : OpOut :=
  match other with
  | some (.number b) => do
    let n ← (a.pyAnd b).toIntE
    pure (.inl (some (.boolV n)))
  | _ => .ok (.inr illegalOp)

/-- `Number.ored_by`: `Bool(int(self.value or other.value))`. -/
def Number.oredBy (a : PyNum) (other : Option Value) : OpOut :=
  match other with
  | some (.number b) => do
    let n ← (a.pyOr b).toIntE
    pure (.inl (some (.boolV n)))
  | _ => .ok (.inr illegalOp)

/-- `Number.notted`: `Bool(1 if self.value == 0 else 0)`. -/
def Number.notted (a : PyNum) : OpOut :=
  .ok (.inl (some (.boolV (if a.isZero then 1 else 0))))

/-- `String.added_to`: concatenation of `str` payloads when the right
operand is a peanut `String`; a non-`str` payload makes Python `+` raise. -/
def StringV.addedTo (p : StrPayload) (other : Option Value) : OpOut :=
  match other with
  | some (.strV q) =>
    match p, q with
    | .s a, .s b => .ok (.inl (some (.strV (.s (a ++ b)))))
    | _, _ => .error (.typeErr "unsupported operand types for +")
  | _ => .ok (.inr illegalOp)

/-- `String.divided_by`: character at the (possibly negative) index; the
bare `except:` of the source turns every exception - bad index, non-int
index, unsubscriptable payload - into the out-of-bounds runtime error.  The
one payload that subscripts without raising (a wrapped peanut `String`,
whose class defines `__getitem__`) leaves the embedding. -/
def StringV.dividedBy (p : StrPayload) (other : Option Value) : OpOut :=
  match other with
  | some (.number n) =>
    match p, n with
    | .s s, .i idx =>
      let len : Int := s.length
      let norm : Int := if idx < 0 then len + idx else idx
      if norm < 0 ∨ norm ≥ len then
        .ok (.inr (.rtErr "Character at this index could not be obtained because the index is out of bounds"))
      else
        match s.data.get? norm.toNat with
        | some c => .ok (.inl (some (.strV (.s (String.singleton c)))))
        | none => .ok (.inr (.rtErr "Character at this index could not be obtained because the index is out of bounds"))
    | .obj (.strV _), _ => .error (.unmodelled "String.__getitem__ on a wrapped String")
    | _, _ =>
      .ok (.inr (.rtErr "Character at this index could not be obtained because the index is out of bounds"))
  | _ => .ok (.inr illegalOp)

/-- Python `==` between two `String` payloads: `str` equality; `None ==
None` is true; distinct wrapped objects compare by identity, i.e. false
(every reaching path copies, so the two operands are distinct objects). -/
def StrPayload.eqB : StrPayload → StrPayload → Bool
  | .s a, .s b => a = b
  | .pyNone, .pyNone => true
  | _, _ => false

/-- `String.get_comparison_eq`. -/
def StringV.cmpEq (p : StrPayload) (other : Option Value) : OpOut :=
  match other with
  | some (.strV q) => .ok (.inl (some (boolOf (p.eqB q))))
  | _ => .ok (.inl (some (.boolV 0)))

/-- `String.get_comparison_ne`. -/
def StringV.cmpNe (p : StrPayload) (other : Option Value) : OpOut :=
  match other with
  | some (.strV q) => .ok (.inl (some (boolOf (¬ p.eqB q))))
  | _ => .ok (.inl (some (.boolV 1)))

/-- `Array.added_to`: `new_list = self.copy()` shares the element cell
(`Array.copy` passes `self.elements` to the constructor), so the append
mutates the operand's own element list; the result aliases it. -/
def ArrayV.addedTo (st : Store) (r : Nat) (other : Option Value) :
    Except Crash ((Sum (Option Value) PErr) × Store) :=
  match st.getArr r with
  | some elems => .ok (.inl (some (.arr r)), st.setArr r (elems ++ [other]))
  | none => .error (.unmodelled "dangling array cell")

/-- `Array.subtracted_by`: `pop` at a (possibly negative) `Number` index on
the shared cell; the bare `except:` maps bad indices (and non-int ones) to
the runtime error. -/
def ArrayV.subtractedBy (st : Store) (r : Nat) (other : Option Value) :
    Except Crash ((Sum (Option Value) PErr) × Store) :=
  match other with
  | some (.number n) =>
    match st.getArr r with
    | none => .error (.unmodelled "dangling array cell")
    | some elems =>
      match n with
      | .i idx =>
        let len : Int := elems.length
        let norm : Int := if idx < 0 then len + idx else idx
        if norm < 0 ∨ norm ≥ len then
          .ok (.inr (.rtErr "Element at this index could not be removed because the index is out of bounds"), st)
        else
          .ok (.inl (some (.arr r)), st.setArr r (elems.eraseIdx norm.toNat))
      | _ =>
        .ok (.inr (.rtErr "Element at this index could not be removed because the index is out of bounds"), st)
  | _ => .ok (.inr illegalOp, st)

/-- `Array.multiplied_by`: extend the shared cell with the other array's
elements. -/
def ArrayV.multipliedBy (st : Store) (r : Nat) (other : Option Value) :
    Except Crash ((Sum (Option Value) PErr) × Store) :=
  match other with
  | some (.arr r2) =>
    match st.getArr r, st.getArr r2 with
    | some elems, some elems2 => .ok (.inl (some (.arr r)), st.setArr r (elems ++ elems2))
    | _, _ => .error (.unmodelled "dangling array cell")
  | _ => .ok (.inr illegalOp, st)

/-- `Array.divided_by`: element at a (possibly negative) `Number` index;
the element handed back may be a stored Python `None`. -/
def ArrayV.dividedBy (st : Store) (r : Nat) (other : Option Value) : OpOut :=
  match other with
  | some (.number n) =>
    match st.getArr r with
    | none => .error (.unmodelled "dangling array cell")
    | some elems =>
      match n with
      | .i idx =>
        let len : Int := elems.length
        let norm : Int := if idx < 0 then len + idx else idx
        if norm < 0 ∨ norm ≥ len then
          .ok (.inr (.rtErr "Element at this index could not be obtained because the index is out of bounds"))
        else
          match elems.get? norm.toNat with
          | some e => .ok (.inl e)
          | none => .ok (.inr (.rtErr "Element at this index could not be obtained because the index is out of bounds"))
      | _ =>
        .ok (.inr (.rtErr "Element at this index could not be obtained because the index is out of bounds"))
  | _ => .ok (.inr illegalOp)

/-- `Bool.get_comparison_eq`. -/
def BoolV.cmpEq (a : Int) (other : Option Value) : OpOut :=
  match other with
  | some (.boolV b) => .ok (.inl (some (boolOf (a = b))))
  | _ => .ok (.inl (some (.boolV 0)))

/-- `Bool.get_comparison_ne`. -/
def BoolV.cmpNe (a : Int) (other : Option Value) : OpOut :=
  match other with
  | some (.boolV b) => .ok (.inl (some (boolOf (¬ a = b))))
  | _ => .ok (.inl (some (.boolV 1)))

/-- `Bool.anded_by`: `Bool(int(self.value and other.value))` on the int
payloads. -/
def BoolV.andedBy (a : Int) (other : Option Value) : OpOut :=
  match other with
  | some (.boolV b) => .ok (.inl (some (.boolV (if a = 0 then a else b))))
  | _ => .ok (.inr illegalOp)

/-- `Bool.ored_by`. -/
def BoolV.oredBy (a : Int) (other : Option Value) : OpOut :=
  match other with
  | some (.boolV b) => .ok (.inl (some (.boolV (if a = 0 then b else a))))
  | _ => .ok (.inr illegalOp)

def BoolV.notted (a : Int) : OpOut :=
  .ok (.inl (some (.boolV (if a = 0 then 1 else 0))))

/-- The operator dispatch of `visit_BinaryOpNode`.  The interpreter calls
`subtracted_by` / `multiplied_by` / `divided_by` / `pow` / `modded_by`,
which only some classes define and the base class does *not* (it defines
`subbed_by`, `multed_by`, `dived_by`, `powed_by`, `modded` instead), so an
unsupported left operand raises `AttributeError` for those operators; for
`added_to`, the comparisons, `anded_by` and `ored_by` the base class
supplies the `Illegal operation` runtime error. -/
def binOpApply (st : Store) (op : Token) (left : Value) (right : Option Value) :
    Except Crash ((Sum (Option Value) PErr) × Store) :=
  let pureOp (o : OpOut) : Except Crash ((Sum (Option Value) PErr) × Store) :=
    do let r ← o; pure (r, st)
  let attrCrash (m : String) : Except Crash ((Sum (Option Value) PErr) × Store) :=
    .error (.attrErr m)
  match op.ty with
  | .PLUS =>
    match left with
    | .number a => pureOp (Number.addedTo a right)
    | .strV p => pureOp (StringV.addedTo p right)
    | .arr r => ArrayV.addedTo st r right
    | _ => pureOp (.ok (.inr illegalOp))
  | .MINUS =>
    match left with
    | .number a => pureOp (Number.subtractedBy a right)
    | .arr r => ArrayV.subtractedBy st r right
    | _ => attrCrash "no attribute subtracted_by"
  | .MUL =>
    match left with
    | .number a => pureOp (Number.multipliedBy a right)
    | .arr r => ArrayV.multipliedBy st r right
    | _ => attrCrash "no attribute multiplied_by"
  | .DIV =>
    match left with
    | .number a => pureOp (Number.dividedBy a right)
    | .strV p => pureOp (StringV.dividedBy p right)
    | .arr r => pureOp (ArrayV.dividedBy st r right)
    | _ => attrCrash "no attribute divided_by"
  | .POW =>
    match left with
    | .number a => pureOp (Number.powE a right)
    | _ => attrCrash "no attribute pow"
  | .MOD =>
    match left with
    | .number a => pureOp (Number.moddedBy a right)
    | _ => attrCrash "no attribute modded_by"
  | .EE =>
    match left with
    | .number a => pureOp (Number.cmpEq a right)
    | .strV p => pureOp (StringV.cmpEq p right)
    | .boolV a => pureOp (BoolV.cmpEq a right)
    | _ => pureOp (.ok (.inr illegalOp))
  | .NE =>
    match left with
    | .number a => pureOp (Number.cmpNe a right)
    | .strV p => pureOp (StringV.cmpNe p right)
    | .boolV a => pureOp (BoolV.cmpNe a right)
    | _ => pureOp (.ok (.inr illegalOp))
  | .LT =>
    match left with
    | .number a => pureOp (Number.cmpLt a right)
    | _ => pureOp (.ok (.inr illegalOp))
  | .GT =>
    match left with
    | .number a => pureOp (Number.cmpGt a right)
    | _ => pureOp (.ok (.inr illegalOp))
  | .LTE =>
    match left with
    | .number a => pureOp (Number.cmpLte a right)
    | _ => pureOp (.ok (.inr illegalOp))
  | .GTE =>
    match left with
    | .number a => pureOp (Number.cmpGte a right)
    | _ => pureOp (.ok (.inr illegalOp))
  | .KEYWORD =>
    if op.value = some (.s "and") then
      match left with
      | .number a => pureOp (Number.andedBy a right)
      | .boolV a => pureOp (BoolV.andedBy a right)
      | _ => pureOp (.ok (.inr illegalOp))
    else if op.value = some (.s "or") then
      match left with
      | .number a => pureOp (Number.oredBy a right)
      | .boolV a => pureOp (BoolV.oredBy a right)
      | _ => pureOp (.ok (.inr illegalOp))
    else
      .error (.exn "NameError: error referenced before assignment")
  | _ => .error (.exn "NameError: error referenced before assignment")

/-- The dispatch of `visit_UnaryOpNode`: unary minus multiplies by
`Number(-1)`; `not` calls `notted()` (which the base class cannot satisfy:
its `notted` requires a second positional argument); any other operator
token (unary `+`) leaves the operand unchanged. -/
def unOpApply (st : Store) (op : Token) (v : Value) :
    Except Crash ((Sum (Option Value) PErr) × Store) :=
  if op.ty = .MINUS then
    match v with
    | .number a => do
      let r ← Number.multipliedBy a (some (.number (.i (-1))))
      pure (r, st)
    | .arr r => ArrayV.multipliedBy st r (some (.number (.i (-1))))
    | _ => .error (.attrErr "no attribute multiplied_by")
  else if op.isKw "not" then
    match v with
    | .number a => do let r ← Number.notted a; pure (r, st)
    | .boolV a => do let r ← BoolV.notted a; pure (r, st)
    | _ => .error (.typeErr "notted() missing positional argument")
  else
    .ok (.inl (some v), st)

end PeanutEmbed

namespace PeanutEmbed

/-- `Function.__repr__` (`BaseFunction` stores `name or "<anonymous>"`). -/
def funcRepr (name : Option String) : String :=
  "<function " ++ (match name with
    | some n => if n = "" then "<anonymous>" else n
    | none => "<anonymous>") ++ ">"

/-- `BuiltInFunction.__repr__`. -/
def builtinRepr (name : String) : String := "<built-in $" ++ name ++ ">"

/-- `BaseFunction.check_args`.  Built-in dispatch passes `None` for
`arg_defaults`; evaluating `len(None)` in the too-few branch raises.  Note
the source's too-few condition is `len(args) < len(arg_names) and
len(args) > len(arg_defaults)` - not a comparison with the number of
required parameters. -/
def checkArgs (selfRepr : String) (argNames : List String)
    (argDefaults : Option (List Token)) (args : List (Option Value)) :
    Except Crash RTResult :=
  if args.length > argNames.length then
    .ok (RTResult.failure (.rtErr
      (toString (args.length - argNames.length) ++ " too many args passed into " ++ selfRepr)))
  else if args.length < argNames.length then
    match argDefaults with
    | none => .error (.typeErr "object of type NoneType has no len()")
    | some ds =>
      if args.length > ds.length then
        .ok (RTResult.failure (.rtErr
          (toString (argNames.length - args.length) ++ " too few args passed into " ++ selfRepr)))
      else .ok (RTResult.success none)
  else .ok (RTResult.success none)

/-- The `fixed` string of `BaseFunction.populate_args`: the token's repr
with its `INT:` / `STRING:` / `FLOAT:` tag stripped. -/
def defaultFixed (d : Token) : String :=
  let r := d.repr
  let r1 := pyReplace r "INT:" ""
  if r1 ≠ r then r1 else
  let r2 := pyReplace r "STRING:" ""
  if r2 ≠ r then r2 else pyReplace r "FLOAT:" ""

/-- The loop of `BaseFunction.populate_args` over `range(len(chosen))`:
parameter `i` takes the positional argument when `i <= len(args)` and args
are nonempty (`args[len(args)]` raising `IndexError`), else
`Number(fixed)` - a `Number` wrapping the default literal's *text*. -/
def populateArgsAux (execCtx : Ctx) (argNames : List String)
    (argDefaults : List Token) (args : List (Option Value)) (t : Tbl) (i : Nat) :
    Nat → Except Crash Tbl
  | 0 => .ok t
  | rem + 1 =>
    match argNames.get? i with
    | none => .error .indexErr
    | some name =>
      if args.length < i ∨ args.length = 0 then
        match argDefaults.get? i with
        | none => .error .indexErr
        | some d =>
          populateArgsAux execCtx argNames argDefaults args
            (t.setE name ⟨some (.number (.s (defaultFixed d))), false, false, false, none⟩)
            (i + 1) rem
      else
        match args.get? i with
        | none => .error .indexErr
        | some v =>
          populateArgsAux execCtx argNames argDefaults args
            (t.setE name ⟨v.map (fun w => w.setCtx execCtx), false, false, false, none⟩)
            (i + 1) rem

/-- `BaseFunction.populate_args` on the callee's execution table: when any
defaults exist the loop runs over the *defaults* (so parameters past
`len(arg_defaults)` are never bound), else over the supplied arguments. -/
def populateArgs (execCtx : Ctx) (argNames : List String)
    (argDefaults : Option (List Token)) (args : List (Option Value)) (t : Tbl) :
    Except Crash Tbl :=
  let hasDefaults := match argDefaults with
    | some ds => ds.length != 0
    | none => false
  let n := if hasDefaults then (argDefaults.getD []).length else args.length
  populateArgsAux execCtx argNames (argDefaults.getD []) args t 0 n

/-- The base64 alphabet of RFC 4648 (the Python `base64` module). -/
def b64chars : List Char :=
  "ABCDEFGHIJKLMNOPQRSTUVWXYZabcdefghijklmnopqrstuvwxyz0123456789+/".data

def b64charOf (n : Nat) : Char := (b64chars.get? n).getD 'A'

/-- `base64.b64encode` on a byte list. -/
def b64encodeBytes : List Nat → List Char
  | [] => []
  | [a] =>
    let n := a * 65536
    [b64charOf (n / 262144), b64charOf (n / 4096 % 64), '=', '=']
  | [a, b] =>
    let n := a * 65536 + b * 256
    [b64charOf (n / 262144), b64charOf (n / 4096 % 64), b64charOf (n / 64 % 64), '=']
  | a :: b :: c :: rest =>
    let n := a * 65536 + b * 256 + c
    b64charOf (n / 262144) :: b64charOf (n / 4096 % 64) ::
      b64charOf (n / 64 % 64) :: b64charOf (n % 64) :: b64encodeBytes rest

def b64indexOf (c : Char) : Option Nat :=
  (b64chars.indexOf? c).map id

/-- `base64.b64decode` on a char list (padding removed by the caller). -/
def b64decodeSextets : List Nat → List Nat
  | a :: b :: c :: d :: rest =>
    (a * 4 + b / 16) :: (b % 16 * 16 + c / 4) :: (c % 4 * 64 + d) :: b64decodeSextets rest
  | [a, b, c] => [a * 4 + b / 16, b % 16 * 16 + c / 4]
  | [a, b] => [a * 4 + b / 16]
  | _ => []

def b64decodeChars (cs : List Char) : Option (List Nat) := do
  let body := cs.filter (fun c => c ≠ '=')
  let sextets ← body.mapM b64indexOf
  pure (b64decodeSextets sextets)

/-- `str.encode('ascii')`: the code points, when all are below 128. -/
def asciiBytes (s : String) : Option (List Nat) :=
  if s.data.all (fun c => c.toNat < 128) then some (s.data.map Char.toNat)
  else none

/-- `bytes.decode('ascii')`. -/
def asciiString (bs : List Nat) : Option String :=
  if bs.all (fun b => b < 128) then
    some (String.mk (bs.map Char.ofNat))
  else none

/-- The body of `execute_base64_encode` on a `str` payload. -/
def b64encodePy (s : String) : Except Crash String :=
  match asciiBytes s with
  | none => .error (.valueErr "ascii codec cannot encode")
  | some bs => .ok (String.mk (b64encodeBytes bs))

/-- The body of `execute_base64_decode` on a `str` payload: the source
*re-encodes* its input and then decodes that, so this is the identity on
every ASCII string. -/
def b64decodePy (s : String) : Except Crash String :=
  match asciiBytes s with
  | none => .error (.valueErr "ascii codec cannot encode")
  | some bs =>
    let encoded := b64encodeBytes bs
    match b64decodeChars encoded with
    | none => .error (.valueErr "invalid base64")
    | some out =>
      match asciiString out with
      | none => .error (.valueErr "ascii codec cannot decode")
      | some r => .ok r

/-- `str()` of the argument inside a built-in (`String.__str__`): the
payload when it is a `str`, else a `TypeError`. -/
def strOfPayload : StrPayload → Except Crash String
  | .s s => .ok s
  | _ => .error (.typeErr "str of String wrapping a non-str")

/-- `Interpreter.visit_AccessNode` for a name in context `ctx`.  At a
root context the chain lookup is overwritten by the locked table's; a falsy
value (`None`, or a `String` whose `len` is 0) triggers the fallback: the
global table's binding when `getScope` produced `False`, else the
not-defined runtime error; `None.copy()` after a failed global fallback
raises `AttributeError`. -/
def visitAccessNode (fuel : Nat) (name : String) (ctx : Ctx) (st : Store) :
    Except Fault (RTResult × Store) :=
  let value := st.symGet fuel ctx.tableRef name
  let shouldScope := st.getScope fuel ctx.tableRef name
  let value := match ctx.parent with
    | none => st.symGet fuel 0 name
    | some _ => value
  match pyTruthyOpt value with
  | .error c => .error (.crash c)
  | .ok true =>
    match value with
    | some v => .ok (RTResult.success (some (v.copy.setCtx ctx)), st)
    | none => .error (.crash (.unmodelled "truthy None"))
  | .ok false =>
    match shouldScope with
    | some (.inl false) =>
      match st.symGet fuel 1 name with
      | none => .error (.crash (.attrErr "NoneType object has no attribute copy"))
      | some v => .ok (RTResult.success (some (v.copy.setCtx ctx)), st)
    | _ =>
      .ok (RTResult.failure (.rtErr
        ("\x27" ++ name ++ "\x27 is not defined or not in this scope.")), st)

/-- The built-in names that have an `execute_<name>` method.  `print_return`,
`append`, `remove` and `concat` are registered but have none: calling them
reaches `method.arg_names` on the fallback `no_visit_method` and raises
`AttributeError`. -/
def builtinArgNames : String → Option (List String)
  | "print" => some ["value"]
  | "input" => some []
  | "input_int" => some []
  | "clear" => some []
  | "is_number" => some ["value"]
  | "is_string" => some ["value"]
  | "is_array" => some ["value"]
  | "is_function" => some ["value"]
  | "typeof" => some ["value"]
  | "len" => some ["array"]
  | "time" => some []
  | "base64_encode" => some ["string"]
  | "base64_decode" => some ["string"]
  | "number_to_unicode" => some ["number"]
  | "unicode_to_number" => some ["string"]
  | "format_number" => some ["num"]
  | "run" => some ["fn"]
  | "use" => some ["fn"]
  | "read" => some ["fn"]
  | _ => none

/-- The body of `execute_<name>` reading its arguments from the execution
table `tref`.  I/O built-ins and `format_number`'s float math are outside
the embedding (header). -/
def builtinBody (fuel : Nat) (name : String) (tref : Nat) (st : Store) :
    Except Fault (RTResult × Store) :=
  let get (n : String) : Option Value := st.symGet fuel tref n
  match name with
  | "print" =>
    match get "value" with
    | some (.arr r) => do
      let s ← pyStr fuel st (.arr r)
      pure (RTResult.success (some (.strV (.s ("[" ++ s ++ "]")))), st)
    | some v => .ok (RTResult.success (some (.strV (.obj v))), st)
    | none => .ok (RTResult.success (some (.strV .pyNone)), st)
  | "input" => .error (.crash (.ioUnmodelled "input"))
  | "input_int" => .error (.crash (.ioUnmodelled "input_int"))
  | "clear" => .error (.crash (.ioUnmodelled "clear"))
  | "time" => .error (.crash (.ioUnmodelled "time"))
  | "run" => .error (.crash (.ioUnmodelled "run"))
  | "use" => .error (.crash (.ioUnmodelled "use"))
  | "read" => .error (.crash (.ioUnmodelled "read"))
  | "is_number" =>
    let b := match get "value" with
      | some (.number _) => true
      | _ => false
    .ok (RTResult.success (some (.number (.i (if b then 1 else 0)))), st)
  | "is_string" =>
    let b := match get "value" with
      | some (.strV _) => true
      | _ => false
    .ok (RTResult.success (some (.number (.i (if b then 1 else 0)))), st)
  | "is_array" =>
    let b := match get "value" with
      | some (.arr _) => true
      | _ => false
    .ok (RTResult.success (some (.number (.i (if b then 1 else 0)))), st)
  | "is_function" =>
    let b := match get "value" with
      | some (.funcV _ _ _ _ _ _) => true
      | some (.builtin _ _) => true
      | _ => false
    .ok (RTResult.success (some (.number (.i (if b then 1 else 0)))), st)
  | "typeof" =>
    let s := match get "value" with
      | some (.number _) => "Number"
      | some (.strV _) => "String"
      | some (.arr _) => "Array"
      | some (.funcV _ _ _ _ _ _) => "Function"
      | some (.builtin _ _) => "Function"
      | some (.boolV _) => "Bool"
      | none => "That's strange, this value has no type."
    .ok (RTResult.success (some (.strV (.s s))), st)
  | "len" =>
    match get "array" with
    | some (.arr r) =>
      match st.getArr r with
      | some elems => .ok (RTResult.success (some (.number (.i elems.length))), st)
      | none => .error (.crash (.unmodelled "dangling array cell"))
    | some (.strV (.s s)) => .ok (RTResult.success (some (.number (.i s.length))), st)
    | some (.strV _) => .error (.crash (.typeErr "len() of a non-str payload"))
    | _ => .ok (RTResult.failure (.rtErr "Argument must be an array or string"), st)
  | "base64_encode" =>
    match get "string" with
    | some (.strV p) =>
      match strOfPayload p with
      | .error c => .error (.crash c)
      | .ok s =>
        match b64encodePy s with
        | .error c => .error (.crash c)
        | .ok r => .ok (RTResult.success (some (.strV (.s r))), st)
    | _ => .ok (RTResult.failure (.rtErr "Argument must be a string"), st)
  | "base64_decode" =>
    match get "string" with
    | some (.strV p) =>
      match strOfPayload p with
      | .error c => .error (.crash c)
      | .ok s =>
        match b64decodePy s with
        | .error c => .error (.crash c)
        | .ok r => .ok (RTResult.success (some (.strV (.s r))), st)
    | _ => .ok (RTResult.failure (.rtErr "Argument must be a string"), st)
  | "number_to_unicode" =>
    match get "number" with
    | some (.number p) =>
      match p.toIntE with
      | .error c => .error (.crash c)
      | .ok n =>
        if n > 1111998 then
          .ok (RTResult.failure (.rtErr "Argument must be a Number less than 1111998"), st)
        else if n < 0 then .error (.crash (.valueErr "chr() arg out of range"))
        else if (55296 ≤ n ∧ n ≤ 57343) then
          .error (.crash (.unmodelled "chr() of a lone surrogate"))
        else
          .ok (RTResult.success (some (.strV (.s (String.singleton (Char.ofNat n.toNat))))), st)
    | _ => .ok (RTResult.failure (.rtErr "Argument must be a Number less than 1111998"), st)
  | "unicode_to_number" =>
    match get "string" with
    | some (.strV p) =>
      match strOfPayload p with
      | .error c => .error (.crash c)
      | .ok s =>
        if s.length > 1 then
          .ok (RTResult.failure (.rtErr "Argument must be a 1-Character String"), st)
        else
          match s.data with
          | [c] => .ok (RTResult.success (some (.number (.i c.toNat))), st)
          | _ => .error (.crash (.typeErr "ord() of empty string"))
    | _ => .ok (RTResult.failure (.rtErr "Argument must be a 1-Character String"), st)
  | "format_number" =>
    match get "num" with
    | some (.number _) => .error (.crash (.unmodelled "float math in format_number"))
    | _ => .ok (RTResult.failure (.rtErr "Argument must be a Number"), st)
  | _ => .error (.crash (.exn "no execute method"))

/-- `BuiltInFunction.execute`: make the execution context (raising when no
context was attached), look the method up (`method.arg_names` raising for
the built-ins without one), check and populate, then run the body. -/
def builtinExecute (fuel : Nat) (name : String) (selfCtx : Option Ctx)
    (args : List (Option Value)) (st : Store) : Except Fault (RTResult × Store) :=
  match selfCtx with
  | none => .error (.crash (.attrErr "NoneType object has no attribute symbol_table"))
  | some ctx =>
    let (tref, st1) := st.allocTbl ⟨[], some ctx.tableRef⟩
    let execCtx := Ctx.mk name (some ctx) tref
    match builtinArgNames name with
    | none => .error (.crash (.attrErr "function object has no attribute arg_names"))
    | some argNames =>
      match checkArgs (builtinRepr name) argNames none args with
      | .error c => .error (.crash c)
      | .ok cres =>
        if cres.error.isSome then .ok (cres, st1)
        else
          match st1.tbl tref with
          | none => .error (.crash (.unmodelled "dangling table cell"))
          | some t =>
            match populateArgs execCtx argNames none args t with
            | .error c => .error (.crash c)
            | .ok t2 =>
              let st2 := st1.setTbl tref t2
              match builtinBody fuel name tref st2 with
              | .error f => .error f
              | .ok (mres, st3) =>
                if mres.error.isSome then .ok (mres, st3)
                else .ok (RTResult.success mres.value, st3)

end PeanutEmbed

namespace PeanutEmbed

/-- The lexeme a token's value holds (identifier / keyword tokens always
hold a `str`). -/
def Token.strValue (t : Token) : String :=
  match t.value with
  | some (.s s) => s
  | _ => ""

/-- Python attribute read `x.value` in `visit_ForNode`: `Number`, `String`
and `Bool` have a `.value`; `Array` and function values do not.  A `String`
wrapping a non-`str` is folded into the `TypeError` its first comparison
would raise. -/
def Value.attrValue : Value → Except Crash PyNum
  | .number p => .ok p
  | .strV (.s s) => .ok (.s s)
  | .strV _ => .error (.typeErr "unorderable types")
  | .boolV b => .ok (.i b)
  | .arr _ => .error (.attrErr "Array object has no attribute value")
  | .funcV _ _ _ _ _ _ => .error (.attrErr "Function object has no attribute value")
  | .builtin _ _ => .error (.attrErr "BuiltInFunction object has no attribute value")

/-- `step_value.value >= 0` in `visit_ForNode`. -/
def PyNum.geZero : PyNum → Except Crash Bool
  | .i n => .ok (n ≥ 0)
  | .f q => .ok (q ≥ 0)
  | .inf => .ok true
  | .ninf => .ok false
  | .s _ => .error (.typeErr "unorderable types")

/-- `res.success_return(value)` with the registered (optional) value. -/
def RTResult.successReturnOpt (v : Option Value) : RTResult :=
  { funcReturnValue := v }

mutual

/-- `Interpreter.visit`, one case per `visit_*` method. -/
def visit : Nat → PNode → Ctx → Store → Except Fault (RTResult × Store)
  | 0, _, _, _ => .error .nofuel
  | fuel + 1, node, ctx, st =>
    match node with
    | .number tok =>
      match tok.value with
      | some (.i n) => .ok (RTResult.success (some (.number (.i n))), st)
      | some (.f q) => .ok (RTResult.success (some (.number (.f q))), st)
      | some (.s s) => .ok (RTResult.success (some (.number (.s s))), st)
      | none => .error (.crash (.unmodelled "NumberNode holding no value"))
    | .strNode tok =>
      match tok.value with
      | some (.s s) => .ok (RTResult.success (some (.strV (.s s))), st)
      | _ => .error (.crash (.unmodelled "StringNode holding no str"))
    | .arrayNode elems =>
      match visitArrayElems fuel elems ctx st {} [] with
      | .error f => .error f
      | .ok (.inl (res, st1)) => .ok (res, st1)
      | .ok (.inr (_, vals, st1)) =>
        let (r, st2) := st1.allocArray vals
        .ok (RTResult.success (some (.arr r)), st2)
    | .varAssign nameTok valueN =>
      let name := nameTok.strValue
      match valueN with
      | some vn =>
        match visit fuel vn ctx st with
        | .error f => .error f
        | .ok (child, st1) =>
          let (res1, value) := RTResult.registerFrom {} child
          match res1.shouldReturn with
          | .error c => .error (.crash c)
          | .ok true => .ok (res1, st1)
          | .ok false =>
            .ok (RTResult.success value,
                 st1.symSet 1 name value true false false none)
      | none =>
        let value : Option Value := some (.number (.i 0))
        .ok (RTResult.success value, st.symSet 1 name value true false false none)
    | .scopedAssign nameTok valueN =>
      let name := nameTok.strValue
      match valueN with
      | some vn =>
        match visit fuel vn ctx st with
        | .error f => .error f
        | .ok (child, st1) =>
          let (res1, value) := RTResult.registerFrom {} child
          match res1.shouldReturn with
          | .error c => .error (.crash c)
          | .ok true => .ok (res1, st1)
          | .ok false =>
            match ctx.parent with
            | none =>
              .ok (RTResult.success value,
                   st1.symSet 0 name value true true false none)
            | some _ =>
              .ok (RTResult.success value,
                   st1.symSet ctx.tableRef name value true true false none)
      | none =>
        let value : Option Value := some (.number (.i 0))
        match ctx.parent with
        | none =>
          .ok (RTResult.success value, st.symSet 0 name value true true false none)
        | some _ =>
          .ok (RTResult.success value, st.symSet ctx.tableRef name value true true false none)
    | .strictAssign nameTok valueN ty =>
      let name := nameTok.strValue
      match visit fuel valueN ctx st with
      | .error f => .error f
      | .ok (child, st1) =>
        let (res1, value) := RTResult.registerFrom {} child
        match res1.shouldReturn with
        | .error c => .error (.crash c)
        | .ok true => .ok (res1, st1)
        | .ok false =>
          .ok (RTResult.success value,
               st1.symSet 1 name value true false true (some ty))
    | .access nameTok => visitAccessNode fuel nameTok.strValue ctx st
    | .binOp l op r =>
      match visit fuel l ctx st with
      | .error f => .error f
      | .ok (childL, st1) =>
        let (res1, lv) := RTResult.registerFrom {} childL
        match res1.shouldReturn with
        | .error c => .error (.crash c)
        | .ok true => .ok (res1, st1)
        | .ok false =>
          match visit fuel r ctx st1 with
          | .error f => .error f
          | .ok (childR, st2) =>
            let (res2, rv) := RTResult.registerFrom res1 childR
            match res2.shouldReturn with
            | .error c => .error (.crash c)
            | .ok true => .ok (res2, st2)
            | .ok false =>
              match lv with
              | none => .error (.crash (.attrErr "NoneType operand"))
              | some left =>
                match binOpApply st2 op left rv with
                | .error c => .error (.crash c)
                | .ok (.inr e, st3) => .ok (RTResult.failure e, st3)
                | .ok (.inl none, _) =>
                  .error (.crash (.attrErr "NoneType object has no attribute set_pos"))
                | .ok (.inl (some v), st3) => .ok (RTResult.success (some v), st3)
    | .unOp op n =>
      match visit fuel n ctx st with
      | .error f => .error f
      | .ok (child, st1) =>
        let (res1, nv) := RTResult.registerFrom {} child
        match res1.shouldReturn with
        | .error c => .error (.crash c)
        | .ok true => .ok (res1, st1)
        | .ok false =>
          match nv with
          | none => .error (.crash (.attrErr "NoneType operand"))
          | some v =>
            match unOpApply st1 op v with
            | .error c => .error (.crash c)
            | .ok (.inr e, st2) => .ok (RTResult.failure e, st2)
            | .ok (.inl none, _) =>
              .error (.crash (.attrErr "NoneType object has no attribute set_pos"))
            | .ok (.inl (some w), st2) => .ok (RTResult.success (some w), st2)
    | .ifNode cases elseCase => visitIfCases fuel cases elseCase ctx st
    | .forNode nameTok startN endN stepN body retNull =>
      match visit fuel startN ctx st with
      | .error f => .error f
      | .ok (childS, st1) =>
        let (res1, sv) := RTResult.registerFrom {} childS
        match res1.shouldReturn with
        | .error c => .error (.crash c)
        | .ok true => .ok (res1, st1)
        | .ok false =>
          match visit fuel endN ctx st1 with
          | .error f => .error f
          | .ok (childE, st2) =>
            let (res2, ev) := RTResult.registerFrom res1 childE
            match res2.shouldReturn with
            | .error c => .error (.crash c)
            | .ok true => .ok (res2, st2)
            | .ok false =>
              let stepRes : Except Fault (Sum (RTResult × Store)
                  (RTResult × Option Value × Store)) :=
                match stepN with
                | some sn =>
                  match visit fuel sn ctx st2 with
                  | .error f => .error f
                  | .ok (childT, st3) =>
                    let (res3, tv) := RTResult.registerFrom res2 childT
                    match res3.shouldReturn with
                    | .error c => .error (.crash c)
                    | .ok true => .ok (.inl (res3, st3))
                    | .ok false => .ok (.inr (res3, tv, st3))
                | none => .ok (.inr (res2, some (.number (.i 1)), st2))
              match stepRes with
              | .error f => .error f
              | .ok (.inl (res3, st3)) => .ok (res3, st3)
              | .ok (.inr (res3, tv, st3)) =>
                match sv with
                | none => .error (.crash (.attrErr "NoneType object has no attribute value"))
                | some svv =>
                  match svv.attrValue with
                  | .error c => .error (.crash c)
                  | .ok i0 =>
                    match tv with
                    | none => .error (.crash (.attrErr "NoneType object has no attribute value"))
                    | some tvv =>
                      match tvv.attrValue with
                      | .error c => .error (.crash c)
                      | .ok stepV =>
                        match ev with
                        | none => .error (.crash (.attrErr "NoneType object has no attribute value"))
                        | some evv =>
                          match evv.attrValue with
                          | .error c => .error (.crash c)
                          | .ok endV =>
                            visitForLoop fuel nameTok.strValue i0 endV stepV body retNull ctx st3 res3 []
    | .whileNode condN body retNull => visitWhileLoop fuel condN body retNull ctx st {} []
    | .funcDef nameTok argNameToks argDefaults body autoRet =>
      let funcName := nameTok.map Token.strValue
      let argNames := argNameToks.map Token.strValue
      let func : Value := .funcV funcName body argNames argDefaults autoRet (some ctx)
      match nameTok with
      | some _ =>
        .ok (RTResult.success (some func),
             st.symSet ctx.tableRef (funcName.getD "") (some func) false false false none)
      | none => .ok (RTResult.success (some func), st)
    | .callNode callee argNodes =>
      match visit fuel callee ctx st with
      | .error f => .error f
      | .ok (childC, st1) =>
        let (res1, cv) := RTResult.registerFrom {} childC
        match res1.shouldReturn with
        | .error c => .error (.crash c)
        | .ok true => .ok (res1, st1)
        | .ok false =>
          match cv with
          | none => .error (.crash (.attrErr "NoneType object has no attribute copy"))
          | some vtc0 =>
            -- value_to_call.copy().set_pos(...): copying also re-attaches the
            -- current context via the preceding AccessNode copy; the context
            -- a call uses is the one stored in the value, which the copy
            -- preserves.  set_context(context) happens in visit_AccessNode's
            -- copy; here we mirror copy().set_pos only.
            let vtc := vtc0.copy
            match visitCallArgs fuel argNodes ctx st1 res1 [] with
            | .error f => .error f
            | .ok (.inl (res2, st2)) => .ok (res2, st2)
            | .ok (.inr (res2, args, st2)) =>
              match executeValue fuel vtc args st2 with
              | .error f => .error f
              | .ok (childE, st3) =>
                let (res3, rv) := RTResult.registerFrom res2 childE
                match res3.shouldReturn with
                | .error c => .error (.crash c)
                | .ok true => .ok (res3, st3)
                | .ok false =>
                  match rv with
                  | none => .error (.crash (.attrErr "NoneType object has no attribute copy"))
                  | some v => .ok (RTResult.success (some (v.copy.setCtx ctx)), st3)
    | .returnNode expr =>
      match expr with
      | some n =>
        match visit fuel n ctx st with
        | .error f => .error f
        | .ok (child, st1) =>
          let (res1, value) := RTResult.registerFrom {} child
          match res1.shouldReturn with
          | .error c => .error (.crash c)
          | .ok true => .ok (res1, st1)
          | .ok false => .ok (RTResult.successReturnOpt value, st1)
      | none => .ok (RTResult.successReturnOpt (some noReturn), st)
    | .continueNode => .ok (RTResult.successContinue, st)
    | .breakNode => .ok (RTResult.successBreak, st)

/-- The element loop of `visit_ArrayNode`: `.inl` is the early
`should_return` exit, `.inr` carries the collected element values. -/
def visitArrayElems : Nat → List PNode → Ctx → Store → RTResult →
    List (Option Value) →
    Except Fault (Sum (RTResult × Store) (RTResult × List (Option Value) × Store))
  | 0, _, _, _, _, _ => .error .nofuel
  | _ + 1, [], _, st, res, acc => .ok (.inr (res, acc, st))
  | fuel + 1, n :: rest, ctx, st, res, acc =>
    match visit fuel n ctx st with
    | .error f => .error f
    | .ok (child, st1) =>
      let (res1, v) := RTResult.registerFrom res child
      match res1.shouldReturn with
      | .error c => .error (.crash c)
      | .ok true => .ok (.inl (res1, st1))
      | .ok false => visitArrayElems fuel rest ctx st1 res1 (acc ++ [v])

/-- The case scan of `visit_IfNode`. -/
def visitIfCases : Nat → List (PNode × PNode × Bool) → Option (PNode × Bool) →
    Ctx → Store → Except Fault (RTResult × Store)
  | 0, _, _, _, _ => .error .nofuel
  | fuel + 1, [], elseCase, ctx, st =>
    match elseCase with
    | some (expr, retNull) =>
      match visit fuel expr ctx st with
      | .error f => .error f
      | .ok (child, st1) =>
        let (res1, ev) := RTResult.registerFrom {} child
        match res1.shouldReturn with
        | .error c => .error (.crash c)
        | .ok true => .ok (res1, st1)
        | .ok false =>
          .ok (RTResult.success (if retNull then some noReturn else ev), st1)
    | none => .ok (RTResult.success (some noReturn), st)
  | fuel + 1, (condN, exprN, retNull) :: rest, elseCase, ctx, st =>
    match visit fuel condN ctx st with
    | .error f => .error f
    | .ok (child, st1) =>
      let (res1, cv) := RTResult.registerFrom {} child
      match res1.shouldReturn with
      | .error c => .error (.crash c)
      | .ok true => .ok (res1, st1)
      | .ok false =>
        match cv with
        | none => .error (.crash (.attrErr "NoneType object has no attribute is_true"))
        | some cvv =>
          match cvv.isTrue with
          | .error c => .error (.crash c)
          | .ok true =>
            match visit fuel exprN ctx st1 with
            | .error f => .error f
            | .ok (child2, st2) =>
              let (res2, ev) := RTResult.registerFrom res1 child2
              match res2.shouldReturn with
              | .error c => .error (.crash c)
              | .ok true => .ok (res2, st2)
              | .ok false =>
                .ok (RTResult.success (if retNull then some noReturn else ev), st2)
          | .ok false => visitIfCases fuel rest elseCase ctx st1
/-- The iteration loop of `visit_ForNode`: bind the loop variable, step,
evaluate the body, honor continue/break, collect body values. -/
def visitForLoop : Nat → String → PyNum → PyNum → PyNum → PNode → Bool →
    Ctx → Store → RTResult → List (Option Value) → Except Fault (RTResult × Store)
  | 0, _, _, _, _, _, _, _, _, _, _ => .error .nofuel
  | fuel + 1, varName, i, endV, stepV, body, retNull, ctx, st, res, elems =>
    match stepV.geZero with
    | .error c => .error (.crash c)
    | .ok nonneg =>
      match (if nonneg then i.ltE endV else endV.ltE i) with
      | .error c => .error (.crash c)
      | .ok cond =>
        if cond then
          let st1 := st.symSet ctx.tableRef varName (some (.number i)) false false false none
          match i.add stepV with
          | .error c => .error (.crash c)
          | .ok i2 =>
            match visit fuel body ctx st1 with
            | .error f => .error f
            | .ok (child, st2) =>
              let (res1, v) := RTResult.registerFrom res child
              match res1.shouldReturn with
              | .error c => .error (.crash c)
              | .ok sr =>
                if sr ∧ res1.loopShouldContinue = false ∧ res1.loopShouldBreak = false then
                  .ok (res1, st2)
                else if res1.loopShouldContinue then
                  visitForLoop fuel varName i2 endV stepV body retNull ctx st2 res1 elems
                else if res1.loopShouldBreak then
                  let (r, st3) := st2.allocArray elems
                  .ok (RTResult.success
                    (if retNull then some noReturn else some (.arr r)), st3)
                else
                  visitForLoop fuel varName i2 endV stepV body retNull ctx st2 res1
                    (elems ++ [v])
        else
          let (r, st3) := st.allocArray elems
          .ok (RTResult.success
            (if retNull then some noReturn else some (.arr r)), st3)

/-- The iteration loop of `visit_WhileNode`. -/
def visitWhileLoop : Nat → PNode → PNode → Bool → Ctx → Store → RTResult →
    List (Option Value) → Except Fault (RTResult × Store)
  | 0, _, _, _, _, _, _, _ => .error .nofuel
  | fuel + 1, condN, body, retNull, ctx, st, res, elems =>
    match visit fuel condN ctx st with
    | .error f => .error f
    | .ok (child, st1) =>
      let (res1, cv) := RTResult.registerFrom res child
      match res1.shouldReturn with
      | .error c => .error (.crash c)
      | .ok true => .ok (res1, st1)
      | .ok false =>
        match cv with
        | none => .error (.crash (.attrErr "NoneType object has no attribute is_true"))
        | some cvv =>
          match cvv.isTrue with
          | .error c => .error (.crash c)
          | .ok false =>
            let (r, st2) := st1.allocArray elems
            .ok (RTResult.success
              (if retNull then some noReturn else some (.arr r)), st2)
          | .ok true =>
            match visit fuel body ctx st1 with
            | .error f => .error f
            | .ok (child2, st2) =>
              let (res2, v) := RTResult.registerFrom res1 child2
              match res2.shouldReturn with
              | .error c => .error (.crash c)
              | .ok sr =>
                if sr ∧ res2.loopShouldContinue = false ∧ res2.loopShouldBreak = false then
                  .ok (res2, st2)
                else if res2.loopShouldContinue then
                  visitWhileLoop fuel condN body retNull ctx st2 res2 elems
                else if res2.loopShouldBreak then
                  let (r, st3) := st2.allocArray elems
                  .ok (RTResult.success
                    (if retNull then some noReturn else some (.arr r)), st3)
                else
                  visitWhileLoop fuel condN body retNull ctx st2 res2 (elems ++ [v])

/-- The argument loop of `visit_CallNode` (a value is appended before the
`should_return` test, exactly as in the source). -/
def visitCallArgs : Nat → List PNode → Ctx → Store → RTResult →
    List (Option Value) →
    Except Fault (Sum (RTResult × Store) (RTResult × List (Option Value) × Store))
  | 0, _, _, _, _, _ => .error .nofuel
  | _ + 1, [], _, st, res, acc => .ok (.inr (res, acc, st))
  | fuel + 1, n :: rest, ctx, st, res, acc =>
    match visit fuel n ctx st with
    | .error f => .error f
    | .ok (child, st1) =>
      let (res1, v) := RTResult.registerFrom res child
      match res1.shouldReturn with
      | .error c => .error (.crash c)
      | .ok true => .ok (.inl (res1, st1))
      | .ok false => visitCallArgs fuel rest ctx st1 res1 (acc ++ [v])

/-- `Function.execute`. -/
def funcExecute : Nat → Option String → PNode → List String → List Token →
    Bool → Option Ctx → List (Option Value) → Store → Except Fault (RTResult × Store)
  | 0, _, _, _, _, _, _, _, _ => .error .nofuel
  | fuel + 1, name, body, argNames, argDefaults, autoRet, fctx, args, st =>
    match fctx with
    | none => .error (.crash (.attrErr "NoneType object has no attribute symbol_table"))
    | some pctx =>
      let execName := match name with
        | some n => if n = "" then "<anonymous>" else n
        | none => "<anonymous>"
      let (tref, st1) := st.allocTbl ⟨[], some pctx.tableRef⟩
      let execCtx := Ctx.mk execName (some pctx) tref
      match checkArgs (funcRepr name) argNames (some argDefaults) args with
      | .error c => .error (.crash c)
      | .ok cres =>
        if cres.error.isSome then .ok (cres, st1)
        else
          match st1.tbl tref with
          | none => .error (.crash (.unmodelled "dangling table cell"))
          | some t =>
            match populateArgs execCtx argNames (some argDefaults) args t with
            | .error c => .error (.crash c)
            | .ok t2 =>
              let st2 := st1.setTbl tref t2
              match visit fuel body execCtx st2 with
              | .error f => .error f
              | .ok (child, st3) =>
                let (res1, value) := RTResult.registerFrom {} child
                match res1.shouldReturn with
                | .error c => .error (.crash c)
                | .ok sr =>
                  if sr ∧ res1.funcReturnValue.isNone then .ok (res1, st3)
                  else
                    let first : Option Value := if autoRet then value else none
                    match pyTruthyOpt first with
                    | .error c => .error (.crash c)
                    | .ok true => .ok (RTResult.success first, st3)
                    | .ok false =>
                      match pyTruthyOpt res1.funcReturnValue with
                      | .error c => .error (.crash c)
                      | .ok true => .ok (RTResult.success res1.funcReturnValue, st3)
                      | .ok false =>
                        .ok (RTResult.success (some (.number (.i 0))), st3)

/-- `value_to_call.execute(args)`: a user function, a built-in, or the base
class's `Illegal operation` failure. -/
def executeValue : Nat → Value → List (Option Value) → Store →
    Except Fault (RTResult × Store)
  | 0, _, _, _ => .error .nofuel
  | fuel + 1, v, args, st =>
    match v with
    | .funcV n b an ad ar c => funcExecute fuel n b an ad ar c args st
    | .builtin n c => builtinExecute fuel n c args st
    | _ => .ok (RTResult.failure illegalOp, st)

end

end PeanutEmbed

namespace PeanutEmbed

/-- Parser state: the token list and `tok_idx`.  `update_current_tok`
leaves `current_tok` unchanged when the index leaves the valid range, which
(for the ±1 steps the parser makes) is the clamped token. -/
structure PST where
  tokens : List Token
  tokIdx : Int

def PST.cur (p : PST) : Token :=
  let n : Int := p.tokens.length
  let k : Int := if p.tokIdx ≥ n then n - 1 else p.tokIdx
  (p.tokens.get? k.toNat).getD ⟨.EOF, none⟩

def PST.adv (p : PST) : PST := { p with tokIdx := p.tokIdx + 1 }

def PST.rev (p : PST) (amount : Nat) : PST := { p with tokIdx := p.tokIdx - amount }

/-- `ParseResult`, polymorphic in what `node` holds (`if_expr_cases` and
friends put tuples there). -/
structure PResT (α : Type) where
  error : Option PErr := none
  node : Option α := none
  advanceCount : Nat := 0
  toReverseCount : Nat := 0

abbrev PRes := PResT PNode

/-- `ParseResult.register`. -/
def PResT.registerFrom {α β : Type} (res : PResT α) (child : PResT β) :
    PResT α × Option β :=
  ({ res with
      advanceCount := res.advanceCount + child.advanceCount
      error := if child.error.isSome then child.error else res.error },
   child.node)

/-- `ParseResult.register_advancement`. -/
def PResT.regAdv {α : Type} (res : PResT α) : PResT α :=
  { res with advanceCount := res.advanceCount + 1 }

/-- `ParseResult.success`. -/
def PResT.succeedOpt {α : Type} (res : PResT α) (n : Option α) : PResT α :=
  { res with node := n }

def PResT.succeed {α : Type} (res : PResT α) (n : α) : PResT α :=
  res.succeedOpt (some n)

/-- `ParseResult.failure`: keep the first error unless nothing was
consumed. -/
def PResT.fail {α : Type} (res : PResT α) (e : PErr) : PResT α :=
  if res.error.isNone ∨ res.advanceCount = 0 then { res with error := some e }
  else res

/-- Substring test (`__contains__`) for a nonempty pattern. -/
def strContains (s pat : String) : Bool := (pyReplace s pat "") ≠ s

/-- The sub-parsers `BinaryOp` is handed (defunctionalized for the fueled
mutual recursion). -/
inductive SubParser where
  | compExpr | arithExpr | term | factor | call
deriving DecidableEq, Repr

/-- Operator sets for `BinaryOp`: a bare token type, or a (KEYWORD, value)
pair. -/
inductive OpSpec where
  | ty (t : TokType)
  | kw (v : String)
deriving DecidableEq, Repr

/-- `self.current_tok.type in ops or (type, value) in ops`. -/
def opsMatch (ops : List OpSpec) (t : Token) : Bool :=
  ops.any (fun o =>
    match o with
    | .ty ty => t.ty = ty
    | .kw v => t.isKw v)

mutual

/-- `Parser.parse`. -/
def parseProgram : Nat → Store → PST → Except Fault (PRes × PST)
  | 0, _, _ => .error .nofuel
  | fuel + 1, st, p =>
    match parseStatements fuel st p with
    | .error f => .error f
    | .ok (res, p1) =>
      if res.error.isNone ∧ p1.cur.ty ≠ .EOF then
        .ok (res.fail (.invalidStx "Token cannot appear after previous tokens"), p1)
      else .ok (res, p1)

/-- The newline-skipping loops of `Parser.statements`. -/
def skipNewlines : Nat → PRes → PST → Except Fault (PRes × PST × Nat)
  | 0, _, _ => .error .nofuel
  | fuel + 1, res, p =>
    if p.cur.ty = .NEWLINE then
      skipNewlines fuel res.regAdv p.adv >>= fun (res1, p1, n) => .ok (res1, p1, n + 1)
    else .ok (res, p, 0)

/-- `Parser.statements`. -/
def parseStatements : Nat → Store → PST → Except Fault (PRes × PST)
  | 0, _, _ => .error .nofuel
  | fuel + 1, st, p =>
    match skipNewlines fuel {} p with
    | .error f => .error f
    | .ok (res, p1, _) =>
      match parseStatement fuel st p1 with
      | .error f => .error f
      | .ok (child, p2) =>
        let (res1, stmt) := res.registerFrom child
        if res1.error.isSome then .ok (res1, p2)
        else
          match stmt with
          | none => .error (.crash (.unmodelled "statement success holding no node"))
          | some s => parseStatementsLoop fuel st p2 res1 [s] true

/-- The trailing loop of `Parser.statements` (`more_statements` /
`try_register` / `reverse`). -/
def parseStatementsLoop : Nat → Store → PST → PRes → List PNode → Bool →
    Except Fault (PRes × PST)
  | 0, _, _, _, _, _ => .error .nofuel
  | fuel + 1, st, p, res, stmts, more =>
    match skipNewlines fuel res p with
    | .error f => .error f
    | .ok (res1, p1, cnt) =>
      let more1 := if cnt = 0 then false else more
      if ¬ more1 then .ok (res1.succeed (.arrayNode stmts), p1)
      else
        match parseStatement fuel st p1 with
        | .error f => .error f
        | .ok (child, p2) =>
          if child.error.isSome then
            let res2 := { res1 with toReverseCount := child.advanceCount }
            let p3 := p2.rev res2.toReverseCount
            parseStatementsLoop fuel st p3 res2 stmts false
          else
            let (res2, stmt) := res1.registerFrom child
            match stmt with
            | none => .error (.crash (.unmodelled "statement success holding no node"))
            | some s => parseStatementsLoop fuel st p2 res2 (stmts ++ [s]) true

/-- `Parser.statement`. -/
def parseStatement : Nat → Store → PST → Except Fault (PRes × PST)
  | 0, _, _ => .error .nofuel
  | fuel + 1, st, p =>
    let res : PRes := {}
    if p.cur.isKw "return" then
      let res := res.regAdv
      let p1 := p.adv
      match parseExpression fuel st p1 with
      | .error f => .error f
      | .ok (child, p2) =>
        if child.error.isSome then
          let res1 := { res with toReverseCount := child.advanceCount }
          let p3 := p2.rev res1.toReverseCount
          .ok (res1.succeed (.returnNode none), p3)
        else
          let (res1, expr) := res.registerFrom child
          -- a successful expression always carries a node; `if not expr`
          -- only fires for the error case above
          .ok (res1.succeed (.returnNode expr), p2)
    else if p.cur.isKw "continue" then
      .ok (res.regAdv.succeed .continueNode, p.adv)
    else if p.cur.isKw "break" then
      .ok (res.regAdv.succeed .breakNode, p.adv)
    else
      match parseExpression fuel st p with
      | .error f => .error f
      | .ok (child, p1) =>
        let (res1, expr) := res.registerFrom child
        if res1.error.isSome then
          .ok (res1.fail (.invalidStx
            ("Expected \x27return\x27, \x27continue\x27, \x27break\x27, \x27var\x27, \x27if\x27, \x27for\x27, \x27while\x27, \x27function\x27, int, float, identifier, \x27+\x27, \x27-\x27, \x27(\x27, \x27[\x27 or \x27not\x27 ")), p1)
        else .ok (res1.succeedOpt expr, p1)

/-- `Parser.expression`, including the `var`/`let`, `scoped` and `strict`
declaration branches (the latter consulting the *global runtime symbol
table at parse time*). -/
def parseExpression : Nat → Store → PST → Except Fault (PRes × PST)
  | 0, _, _ => .error .nofuel
  | fuel + 1, st, p =>
    let res : PRes := {}
    if p.cur.isKw "var" ∨ p.cur.isKw "let" then
      let res := res.regAdv
      let p1 := p.adv
      if p1.cur.ty ≠ .IDENTIFIER then
        .ok (res.fail (.invalidStx "Expected identifier"), p1)
      else
        let varName := p1.cur
        let res := res.regAdv
        let p2 := p1.adv
        if p2.cur.ty ≠ .EQ then
          .ok (res.succeed (.varAssign varName none), p2)
        else
          let res := res.regAdv
          let p3 := p2.adv
          match parseExpression fuel st p3 with
          | .error f => .error f
          | .ok (child, p4) =>
            let (res1, expr) := res.registerFrom child
            if res1.error.isSome then .ok (res1, p4)
            else
              match expr with
              | none => .error (.crash (.unmodelled "expression success holding no node"))
              | some e => .ok (res1.succeed (.varAssign varName (some e)), p4)
    else if p.cur.isKw "scoped" then
      let res := res.regAdv
      let p1 := p.adv
      if p1.cur.ty ≠ .IDENTIFIER then
        .ok (res.fail (.invalidStx "Expected identifier"), p1)
      else
        let varName := p1.cur
        let res := res.regAdv
        let p2 := p1.adv
        if p2.cur.ty ≠ .EQ then
          .ok (res.succeed (.varAssign varName none), p2)
        else
          let res := res.regAdv
          let p3 := p2.adv
          match parseExpression fuel st p3 with
          | .error f => .error f
          | .ok (child, p4) =>
            let (res1, expr) := res.registerFrom child
            if res1.error.isSome then .ok (res1, p4)
            else
              match expr with
              | none => .error (.crash (.unmodelled "expression success holding no node"))
              | some e => .ok (res1.succeed (.scopedAssign varName (some e)), p4)
    else if p.cur.isKw "strict" then
      let res := res.regAdv
      let p1 := p.adv
      let tyOk := match p1.cur.value with
        | some (.s v) => TYPES.contains v
        | _ => false
      if !tyOk then
        .ok (res.fail (.invalidStx "Expected Type declaration"), p1)
      else
        let type_ := p1.cur.strValue
        let res := res.regAdv
        let p2 := p1.adv
        if p2.cur.ty ≠ .IDENTIFIER then
          .ok (res.fail (.invalidStx "Expected identifier"), p2)
        else
          let varName := p2.cur
          let cleanVarName := pyReplace varName.repr "IDENTIFIER:" ""
          let strictClash :=
            st.isStrictGlobal cleanVarName &&
              (st.getTypeGlobal cleanVarName != some type_)
          if strictClash then
            .ok (res.fail (.invalidStx
              "Cannot assign \x27strict\x27 variable to different type!"), p2)
          else
            let res := res.regAdv
            let p3 := p2.adv
            if p3.cur.ty ≠ .EQ then
              .ok (res.fail (.invalidStx "Expected \x27=\x27"), p3)
            else
              let res := res.regAdv
              let p4 := p3.adv
              match parseExpression fuel st p4 with
              | .error f => .error f
              | .ok (child, p5) =>
                let (res1, expr) := res.registerFrom child
                let exprRepr := match expr with
                  | some e => e.reprS
                  | none => "None"
                if type_ = "string" ∧ ¬ strContains exprRepr "STRING" then
                  .ok (res1.fail (.invalidStx "Expected Type \x27string\x27"), p5)
                else if type_ = "int" ∧ ¬ strContains exprRepr "INT" then
                  .ok (res1.fail (.invalidStx "Expected Type \x27int\x27"), p5)
                else if type_ = "float" ∧ ¬ strContains exprRepr "FLOAT" then
                  .ok (res1.fail (.invalidStx "Expected Type \x27float\x27"), p5)
                else if res1.error.isSome then .ok (res1, p5)
                else
                  match expr with
                  | none => .error (.crash (.unmodelled "expression success holding no node"))
                  | some e => .ok (res1.succeed (.strictAssign varName e type_), p5)
    else
      match parseBinOpChain fuel st p .compExpr .compExpr
          [.kw "and", .kw "or"] with
      | .error f => .error f
      | .ok (child, p1) =>
        let (res1, node) := res.registerFrom child
        if res1.error.isSome then
          .ok (res1.fail (.invalidStx
            "Expected \x27var\x27, \x27let\x27, \x27if\x27, \x27for\x27, \x27while\x27, \x27function\x27, int, float, identifier, \x27+\x27, \x27-\x27, \x27(\x27, \x27[\x27 or \x27not\x27"), p1)
        else .ok (res1.succeedOpt node, p1)

/-- `Parser.BinaryOp`. -/
def parseBinOpChain : Nat → Store → PST → SubParser → SubParser →
    List OpSpec → Except Fault (PRes × PST)
  | 0, _, _, _, _, _ => .error .nofuel
  | fuel + 1, st, p, fa, fb, ops =>
    match dispatchSub fuel st p fa with
    | .error f => .error f
    | .ok (child, p1) =>
      let (res1, left) := PResT.registerFrom {} child
      if res1.error.isSome then .ok (res1, p1)
      else parseBinOpLoop fuel st p1 fb ops res1 left

/-- The operator loop of `Parser.BinaryOp`. -/
def parseBinOpLoop : Nat → Store → PST → SubParser → List OpSpec → PRes →
    Option PNode → Except Fault (PRes × PST)
  | 0, _, _, _, _, _, _ => .error .nofuel
  | fuel + 1, st, p, fb, ops, res, left =>
    if opsMatch ops p.cur then
      let opTok := p.cur
      let res := res.regAdv
      let p1 := p.adv
      match dispatchSub fuel st p1 fb with
      | .error f => .error f
      | .ok (child, p2) =>
        let (res1, right) := res.registerFrom child
        if res1.error.isSome then .ok (res1, p2)
        else
          match left, right with
          | some l, some r =>
            parseBinOpLoop fuel st p2 fb ops res1 (some (.binOp l opTok r))
          | _, _ => .error (.crash (.attrErr "NoneType has no attribute pos_start"))
    else .ok (res.succeedOpt left, p)

def dispatchSub : Nat → Store → PST → SubParser → Except Fault (PRes × PST)
  | 0, _, _, _ => .error .nofuel
  | fuel + 1, st, p, sub =>
    match sub with
    | .compExpr => parseCompExpr fuel st p
    | .arithExpr =>
      parseBinOpChain fuel st p .term .term [.ty .PLUS, .ty .MINUS]
    | .term =>
      parseBinOpChain fuel st p .factor .factor [.ty .MUL, .ty .DIV, .ty .MOD]
    | .factor => parseFactor fuel st p
    | .call => parseCall fuel st p

/-- `Parser.comp_expr`. -/
def parseCompExpr : Nat → Store → PST → Except Fault (PRes × PST)
  | 0, _, _ => .error .nofuel
  | fuel + 1, st, p =>
    let res : PRes := {}
    if p.cur.isKw "not" then
      let opTok := p.cur
      let res := res.regAdv
      let p1 := p.adv
      match parseCompExpr fuel st p1 with
      | .error f => .error f
      | .ok (child, p2) =>
        let (res1, node) := res.registerFrom child
        if res1.error.isSome then .ok (res1, p2)
        else
          match node with
          | none => .error (.crash (.attrErr "NoneType has no attribute pos_end"))
          | some n => .ok (res1.succeed (.unOp opTok n), p2)
    else
      match parseBinOpChain fuel st p .arithExpr .arithExpr
          [.ty .EE, .ty .NE, .ty .LT, .ty .GT, .ty .LTE, .ty .GTE] with
      | .error f => .error f
      | .ok (child, p1) =>
        let (res1, node) := res.registerFrom child
        if res1.error.isSome then
          .ok (res1.fail (.invalidStx
            "Expected var, if, function, Int, Float, Identifier, \x27+\x27, \x27-\x27, \x27(\x27, \x27[\x27, or \x27not\x27"), p1)
        else .ok (res1.succeedOpt node, p1)

/-- `Parser.factor`. -/
def parseFactor : Nat → Store → PST → Except Fault (PRes × PST)
  | 0, _, _ => .error .nofuel
  | fuel + 1, st, p =>
    let res : PRes := {}
    let tok := p.cur
    if tok.ty = .PLUS ∨ tok.ty = .MINUS then
      let res := res.regAdv
      let p1 := p.adv
      match parseFactor fuel st p1 with
      | .error f => .error f
      | .ok (child, p2) =>
        let (res1, node) := res.registerFrom child
        if res1.error.isSome then .ok (res1, p2)
        else
          match node with
          | none => .error (.crash (.attrErr "NoneType has no attribute pos_end"))
          | some n => .ok (res1.succeed (.unOp tok n), p2)
    else
      -- power: BinaryOp(call, (POW,), factor)
      parseBinOpChain fuel st p .call .factor [.ty .POW]

/-- `Parser.call`. -/
def parseCall : Nat → Store → PST → Except Fault (PRes × PST)
  | 0, _, _ => .error .nofuel
  | fuel + 1, st, p =>
    let res : PRes := {}
    match parseAtom fuel st p with
    | .error f => .error f
    | .ok (child, p1) =>
      let (res1, atomN) := res.registerFrom child
      if res1.error.isSome then .ok (res1, p1)
      else if p1.cur.ty = .LPAREN then
        let res2 := res1.regAdv
        let p2 := p1.adv
        if p2.cur.ty = .RPAREN then
          let res3 := res2.regAdv
          let p3 := p2.adv
          match atomN with
          | none => .error (.crash (.attrErr "NoneType has no attribute pos_start"))
          | some a => .ok (res3.succeed (.callNode a []), p3)
        else
          match parseExpression fuel st p2 with
          | .error f => .error f
          | .ok (child2, p3) =>
            let (res3, arg1) := res2.registerFrom child2
            if res3.error.isSome then
              .ok (res3.fail (.invalidStx
                "Expected \x27)\x27, \x27var\x27, \x27if\x27, \x27function\x27, int, float, identifier, \x27+\x27, \x27-\x27, \x27(\x27, \x27[\x27, or \x27not\x27 "), p3)
            else
              match arg1 with
              | none => .error (.crash (.unmodelled "expression success holding no node"))
              | some a1 => parseCallArgsLoop fuel st p3 res3 atomN [a1]
      else .ok (res1.succeedOpt atomN, p1)

/-- The comma loop of `Parser.call`. -/
def parseCallArgsLoop : Nat → Store → PST → PRes → Option PNode →
    List PNode → Except Fault (PRes × PST)
  | 0, _, _, _, _, _ => .error .nofuel
  | fuel + 1, st, p, res, atomN, args =>
    if p.cur.ty = .COMMA then
      let res1 := res.regAdv
      let p1 := p.adv
      match parseExpression fuel st p1 with
      | .error f => .error f
      | .ok (child, p2) =>
        let (res2, arg) := res1.registerFrom child
        if res2.error.isSome then .ok (res2, p2)
        else
          match arg with
          | none => .error (.crash (.unmodelled "expression success holding no node"))
          | some a => parseCallArgsLoop fuel st p2 res2 atomN (args ++ [a])
    else if p.cur.ty ≠ .RPAREN then
      .ok (res.fail (.invalidStx "Expected \x27,\x27 or \x27)\x27"), p)
    else
      let res1 := res.regAdv
      let p1 := p.adv
      match atomN with
      | none => .error (.crash (.attrErr "NoneType has no attribute pos_start"))
      | some a => .ok (res1.succeed (.callNode a args), p1)

/-- `Parser.atom`. -/
def parseAtom : Nat → Store → PST → Except Fault (PRes × PST)
  | 0, _, _ => .error .nofuel
  | fuel + 1, st, p =>
    let res : PRes := {}
    let tok := p.cur
    if tok.ty = .INT ∨ tok.ty = .FLOAT then
      .ok (res.regAdv.succeed (.number tok), p.adv)
    else if tok.ty = .STRING then
      .ok (res.regAdv.succeed (.strNode tok), p.adv)
    else if tok.ty = .IDENTIFIER then
      .ok (res.regAdv.succeed (.access tok), p.adv)
    else if tok.ty = .LPAREN then
      let res := res.regAdv
      let p1 := p.adv
      match parseExpression fuel st p1 with
      | .error f => .error f
      | .ok (child, p2) =>
        let (res1, expr) := res.registerFrom child
        if res1.error.isSome then .ok (res1, p2)
        else if p2.cur.ty = .RPAREN then
          .ok (res1.regAdv.succeedOpt expr, p2.adv)
        else
          .ok (res1.fail (.invalidStx "Expected \x27)\x27"), p2)
    else if tok.ty = .LSQUARE then
      match parseListExpr fuel st p with
      | .error f => .error f
      | .ok (child, p1) =>
        let (res1, le) := res.registerFrom child
        if res1.error.isSome then .ok (res1, p1)
        else .ok (res1.succeedOpt le, p1)
    else if tok.isKw "if" then
      match parseIfExpr fuel st p with
      | .error f => .error f
      | .ok (child, p1) =>
        let (res1, n) := res.registerFrom child
        if res1.error.isSome then .ok (res1, p1)
        else .ok (res1.succeedOpt n, p1)
    else if tok.isKw "for" then
      match parseForExpr fuel st p with
      | .error f => .error f
      | .ok (child, p1) =>
        let (res1, n) := res.registerFrom child
        if res1.error.isSome then .ok (res1, p1)
        else .ok (res1.succeedOpt n, p1)
    else if tok.isKw "while" then
      match parseWhileExpr fuel st p with
      | .error f => .error f
      | .ok (child, p1) =>
        let (res1, n) := res.registerFrom child
        if res1.error.isSome then .ok (res1, p1)
        else .ok (res1.succeedOpt n, p1)
    else if tok.isKw "function" then
      match parseFuncDef fuel st p with
      | .error f => .error f
      | .ok (child, p1) =>
        let (res1, n) := res.registerFrom child
        if res1.error.isSome then .ok (res1, p1)
        else .ok (res1.succeedOpt n, p1)
    else
      .ok (res.fail (.invalidStx
        "Expected \x27)\x27, \x27var\x27, \x27if\x27, \x27function\x27, int, float, identifier, \x27+\x27, \x27-\x27, \x27(\x27, \x27[\x27, or \x27not\x27 "), p)

/-- `Parser.list_expr`. -/
def parseListExpr : Nat → Store → PST → Except Fault (PRes × PST)
  | 0, _, _ => .error .nofuel
  | fuel + 1, st, p =>
    let res : PRes := {}
    if p.cur.ty ≠ .LSQUARE then
      .ok (res.fail (.invalidStx "Expected \x27[\x27"), p)
    else
      let res := res.regAdv
      let p1 := p.adv
      if p1.cur.ty = .RSQUARE then
        .ok (res.regAdv.succeed (.arrayNode []), p1.adv)
      else
        match parseExpression fuel st p1 with
        | .error f => .error f
        | .ok (child, p2) =>
          let (res1, e1) := res.registerFrom child
          if res1.error.isSome then
            .ok (res1.fail (.invalidStx
              "Expected \x27]\x27, \x27var\x27, \x27if\x27, \x27function\x27, int, float, identifier, \x27+\x27, \x27-\x27, \x27(\x27, \x27[\x27, or \x27not\x27 "), p2)
          else
            match e1 with
            | none => .error (.crash (.unmodelled "expression success holding no node"))
            | some e => parseListElemsLoop fuel st p2 res1 [e]

/-- The comma loop of `Parser.list_expr`. -/
def parseListElemsLoop : Nat → Store → PST → PRes → List PNode →
    Except Fault (PRes × PST)
  | 0, _, _, _, _ => .error .nofuel
  | fuel + 1, st, p, res, elems =>
    if p.cur.ty = .COMMA then
      let res1 := res.regAdv
      let p1 := p.adv
      match parseExpression fuel st p1 with
      | .error f => .error f
      | .ok (child, p2) =>
        let (res2, e) := res1.registerFrom child
        if res2.error.isSome then .ok (res2, p2)
        else
          match e with
          | none => .error (.crash (.unmodelled "expression success holding no node"))
          | some e1 => parseListElemsLoop fuel st p2 res2 (elems ++ [e1])
    else if p.cur.ty ≠ .RSQUARE then
      .ok (res.fail (.invalidStx "Expected \x27,\x27 or \x27]\x27"), p)
    else
      .ok (res.regAdv.succeed (.arrayNode elems), p.adv)

/-- `Parser.if_expr`. -/
def parseIfExpr : Nat → Store → PST → Except Fault (PRes × PST)
  | 0, _, _ => .error .nofuel
  | fuel + 1, st, p =>
    match parseIfCases fuel st p "if" with
    | .error f => .error f
    | .ok (child, p1) =>
      let (res1, allCases) := PResT.registerFrom ({} : PRes) child
      if res1.error.isSome then .ok (res1, p1)
      else
        match allCases with
        | none => .error (.crash (.unmodelled "if cases success holding no payload"))
        | some (cases, elseCase) =>
          .ok (res1.succeed (.ifNode cases elseCase), p1)

/-- `Parser.if_expr_cases`. -/
def parseIfCases : Nat → Store → PST → String →
    Except Fault (PResT (List (PNode × PNode × Bool) × Option (PNode × Bool)) × PST)
  | 0, _, _, _ => .error .nofuel
  | fuel + 1, st, p, caseKw =>
    let res : PResT (List (PNode × PNode × Bool) × Option (PNode × Bool)) := {}
    if ¬ p.cur.isKw caseKw then
      .ok (res.fail (.invalidStx ("Expected \x27" ++ caseKw ++ "\x27")), p)
    else
      let res := res.regAdv
      let p1 := p.adv
      match parseExpression fuel st p1 with
      | .error f => .error f
      | .ok (child, p2) =>
        let (res1, condO) := res.registerFrom child
        if res1.error.isSome then .ok (res1, p2)
        else
          match condO with
          | none => .error (.crash (.unmodelled "expression success holding no node"))
          | some cond =>
            if ¬ (p2.cur.isKw "then" ∨ p2.cur.ty = .ARROW) then
              .ok (res1.fail (.invalidStx "Expected \x27then\x27 or \x27=>\x27"), p2)
            else
              let res2 := res1.regAdv
              let p3 := p2.adv
              if p3.cur.ty = .NEWLINE then
                let res3 := res2.regAdv
                let p4 := p3.adv
                match parseStatements fuel st p4 with
                | .error f => .error f
                | .ok (child2, p5) =>
                  let (res4, stmtsO) := res3.registerFrom child2
                  if res4.error.isSome then .ok (res4, p5)
                  else
                    match stmtsO with
                    | none => .error (.crash (.unmodelled "statements success holding no node"))
                    | some stmts =>
                      if p5.cur.isKw "end" then
                        .ok (res4.regAdv.succeed ([(cond, stmts, true)], none), p5.adv)
                      else
                        match parseIfBOrC fuel st p5 with
                        | .error f => .error f
                        | .ok (child3, p6) =>
                          let (res5, allO) := res4.registerFrom child3
                          if res5.error.isSome then .ok (res5, p6)
                          else
                            match allO with
                            | none => .error (.crash (.unmodelled "if cases success holding no payload"))
                            | some (newCases, elseCase) =>
                              .ok (res5.succeed
                                ((cond, stmts, true) :: newCases, elseCase), p6)
              else
                match parseStatement fuel st p3 with
                | .error f => .error f
                | .ok (child2, p4) =>
                  let (res3, exprO) := res2.registerFrom child2
                  if res3.error.isSome then .ok (res3, p4)
                  else
                    match exprO with
                    | none => .error (.crash (.unmodelled "statement success holding no node"))
                    | some expr =>
                      match parseIfBOrC fuel st p4 with
                      | .error f => .error f
                      | .ok (child3, p5) =>
                        let (res4, allO) := res3.registerFrom child3
                        if res4.error.isSome then .ok (res4, p5)
                        else
                          match allO with
                          | none => .error (.crash (.unmodelled "if cases success holding no payload"))
                          | some (newCases, elseCase) =>
                            .ok (res4.succeed
                              ((cond, expr, false) :: newCases, elseCase), p5)

/-- `Parser.if_expr_b_or_c`. -/
def parseIfBOrC : Nat → Store → PST →
    Except Fault (PResT (List (PNode × PNode × Bool) × Option (PNode × Bool)) × PST)
  | 0, _, _ => .error .nofuel
  | fuel + 1, st, p =>
    let res : PResT (List (PNode × PNode × Bool) × Option (PNode × Bool)) := {}
    if p.cur.isKw "elif" then
      match parseIfCases fuel st p "elif" with
      | .error f => .error f
      | .ok (child, p1) =>
        let (res1, allO) := res.registerFrom child
        if res1.error.isSome then .ok (res1, p1)
        else
          match allO with
          | none => .error (.crash (.unmodelled "if cases success holding no payload"))
          | some (cases, elseCase) => .ok (res1.succeed (cases, elseCase), p1)
    else
      match parseIfC fuel st p with
      | .error f => .error f
      | .ok (child, p1) =>
        let (res1, elseO) := res.registerFrom child
        if res1.error.isSome then .ok (res1, p1)
        else .ok (res1.succeed ([], elseO), p1)

/-- `Parser.if_expr_c` (the node payload is the optional else case; a
success with `none` means no `else` was present). -/
def parseIfC : Nat → Store → PST → Except Fault (PResT (PNode × Bool) × PST)
  | 0, _, _ => .error .nofuel
  | fuel + 1, st, p =>
    let res : PResT (PNode × Bool) := {}
    if p.cur.isKw "else" then
      let res := res.regAdv
      let p1 := p.adv
      if p1.cur.ty = .NEWLINE then
        let res1 := res.regAdv
        let p2 := p1.adv
        match parseStatements fuel st p2 with
        | .error f => .error f
        | .ok (child, p3) =>
          let (res2, stmtsO) := res1.registerFrom child
          if res2.error.isSome then .ok (res2, p3)
          else
            match stmtsO with
            | none => .error (.crash (.unmodelled "statements success holding no node"))
            | some stmts =>
              if p3.cur.isKw "end" then
                .ok (res2.regAdv.succeed (stmts, true), p3.adv)
              else
                .ok (res2.fail (.invalidStx "Expected \x27end\x27"), p3)
      else
        match parseStatement fuel st p1 with
        | .error f => .error f
        | .ok (child, p2) =>
          let (res1, exprO) := res.registerFrom child
          if res1.error.isSome then .ok (res1, p2)
          else
            match exprO with
            | none => .error (.crash (.unmodelled "statement success holding no node"))
            | some expr => .ok (res1.succeed (expr, false), p2)
    else
      .ok (res.succeedOpt none, p)

/-- `Parser.for_expr`. -/
def parseForExpr : Nat → Store → PST → Except Fault (PRes × PST)
  | 0, _, _ => .error .nofuel
  | fuel + 1, st, p =>
    let res : PRes := {}
    if ¬ p.cur.isKw "for" then
      .ok (res.fail (.invalidStx "Expected \x27for\x27"), p)
    else
      let res := res.regAdv
      let p1 := p.adv
      if p1.cur.ty ≠ .IDENTIFIER then
        .ok (res.fail (.invalidStx "Expected identifier"), p1)
      else
        let varName := p1.cur
        let res := res.regAdv
        let p2 := p1.adv
        if p2.cur.ty ≠ .EQ then
          .ok (res.fail (.invalidStx "Expected \x27=\x27"), p2)
        else
          let res := res.regAdv
          let p3 := p2.adv
          match parseExpression fuel st p3 with
          | .error f => .error f
          | .ok (child, p4) =>
            let (res1, startO) := res.registerFrom child
            if res1.error.isSome then .ok (res1, p4)
            else
              match startO with
              | none => .error (.crash (.unmodelled "expression success holding no node"))
              | some startV =>
                if ¬ p4.cur.isKw "until" then
                  .ok (res1.fail (.invalidStx "Expected \x27until\x27"), p4)
                else
                  let res2 := res1.regAdv
                  let p5 := p4.adv
                  match parseExpression fuel st p5 with
                  | .error f => .error f
                  | .ok (child2, p6) =>
                    let (res3, endO) := res2.registerFrom child2
                    if res3.error.isSome then .ok (res3, p6)
                    else
                      match endO with
                      | none => .error (.crash (.unmodelled "expression success holding no node"))
                      | some endV =>
                        if p6.cur.isKw "step" then
                          let res4 := res3.regAdv
                          let p7 := p6.adv
                          match parseExpression fuel st p7 with
                          | .error f => .error f
                          | .ok (child3, p8) =>
                            let (res5, stepO) := res4.registerFrom child3
                            if res5.error.isSome then .ok (res5, p8)
                            else
                              match stepO with
                              | none => .error (.crash (.unmodelled "expression success holding no node"))
                              | some stepV =>
                                parseForTail fuel st p8 res5 varName startV endV (some stepV)
                        else
                          parseForTail fuel st p6 res3 varName startV endV none

/-- The `then | =>` / body tail of `Parser.for_expr`. -/
def parseForTail : Nat → Store → PST → PRes → Token → PNode → PNode →
    Option PNode → Except Fault (PRes × PST)
  | 0, _, _, _, _, _, _, _ => .error .nofuel
  | fuel + 1, st, p, res, varName, startV, endV, stepV =>
    if ¬ (p.cur.isKw "then" ∨ p.cur.ty = .ARROW) then
      .ok (res.fail (.invalidStx "Expected \x27then\x27 or \x27=>\x27"), p)
    else
      let res1 := res.regAdv
      let p1 := p.adv
      if p1.cur.ty = .NEWLINE then
        let res2 := res1.regAdv
        let p2 := p1.adv
        match parseStatements fuel st p2 with
        | .error f => .error f
        | .ok (child, p3) =>
          let (res3, bodyO) := res2.registerFrom child
          if res3.error.isSome then .ok (res3, p3)
          else
            match bodyO with
            | none => .error (.crash (.unmodelled "statements success holding no node"))
            | some body =>
              if ¬ p3.cur.isKw "end" then
                .ok (res3.fail (.invalidStx "Expected \x27end\x27"), p3)
              else
                .ok (res3.regAdv.succeed
                  (.forNode varName startV endV stepV body true), p3.adv)
      else
        match parseStatement fuel st p1 with
        | .error f => .error f
        | .ok (child, p2) =>
          let (res2, bodyO) := res1.registerFrom child
          if res2.error.isSome then .ok (res2, p2)
          else
            match bodyO with
            | none => .error (.crash (.unmodelled "statement success holding no node"))
            | some body =>
              .ok (res2.succeed (.forNode varName startV endV stepV body false), p2)

/-- `Parser.while_expr`. -/
def parseWhileExpr : Nat → Store → PST → Except Fault (PRes × PST)
  | 0, _, _ => .error .nofuel
  | fuel + 1, st, p =>
    let res : PRes := {}
    if ¬ p.cur.isKw "while" then
      .ok (res.fail (.invalidStx "Expected \x27while\x27"), p)
    else
      let res := res.regAdv
      let p1 := p.adv
      match parseExpression fuel st p1 with
      | .error f => .error f
      | .ok (child, p2) =>
        let (res1, condO) := res.registerFrom child
        if res1.error.isSome then .ok (res1, p2)
        else
          match condO with
          | none => .error (.crash (.unmodelled "expression success holding no node"))
          | some cond =>
            if ¬ (p2.cur.isKw "then" ∨ p2.cur.ty = .ARROW) then
              .ok (res1.fail (.invalidStx "Expected \x27then\x27 or \x27=>\x27"), p2)
            else
              let res2 := res1.regAdv
              let p3 := p2.adv
              if p3.cur.ty = .NEWLINE then
                let res3 := res2.regAdv
                let p4 := p3.adv
                match parseStatements fuel st p4 with
                | .error f => .error f
                | .ok (child2, p5) =>
                  let (res4, bodyO) := res3.registerFrom child2
                  if res4.error.isSome then .ok (res4, p5)
                  else
                    match bodyO with
                    | none => .error (.crash (.unmodelled "statements success holding no node"))
                    | some body =>
                      if ¬ p5.cur.isKw "end" then
                        .ok (res4.fail (.invalidStx "Expected \x27end\x27"), p5)
                      else
                        .ok (res4.regAdv.succeed (.whileNode cond body true), p5.adv)
              else
                match parseStatement fuel st p3 with
                | .error f => .error f
                | .ok (child2, p4) =>
                  let (res3, bodyO) := res2.registerFrom child2
                  if res3.error.isSome then .ok (res3, p4)
                  else
                    match bodyO with
                    | none => .error (.crash (.unmodelled "statement success holding no node"))
                    | some body =>
                      .ok (res3.succeed (.whileNode cond body false), p4)

/-- `Parser.func_def`. -/
def parseFuncDef : Nat → Store → PST → Except Fault (PRes × PST)
  | 0, _, _ => .error .nofuel
  | fuel + 1, st, p =>
    let res : PRes := {}
    if ¬ p.cur.isKw "function" then
      .ok (res.fail (.invalidStx "Expected \x27function\x27"), p)
    else
      let res := res.regAdv
      let p1 := p.adv
      if p1.cur.ty = .IDENTIFIER then
        let varName := p1.cur
        let res1 := res.regAdv
        let p2 := p1.adv
        if p2.cur.ty ≠ .LPAREN then
          .ok (res1.fail (.invalidStx "Expected \x27(\x27"), p2)
        else
          parseFuncParams fuel st p2 res1 (some varName)
      else
        if p1.cur.ty ≠ .LPAREN then
          .ok (res.fail (.invalidStx "Expected identifier or \x27(\x27"), p1)
        else
          parseFuncParams fuel st p1 res none

/-- The parameter list of `Parser.func_def` (from the `(` token): a first
parameter may take `= LITERAL`, the comma loop takes further bare
parameters, and one trailing `= LITERAL` may follow the last. -/
def parseFuncParams : Nat → Store → PST → PRes → Option Token →
    Except Fault (PRes × PST)
  | 0, _, _, _, _ => .error .nofuel
  | fuel + 1, st, p, res, varName =>
    let res1 := res.regAdv
    let p1 := p.adv
    if p1.cur.ty = .IDENTIFIER then
      let argTok := p1.cur
      let res2 := res1.regAdv
      let p2 := p1.adv
      if p2.cur.ty = .EQ then
        let res3 := res2.regAdv
        let p3 := p2.adv
        let defTok := p3.cur
        let res4 := res3.regAdv
        let p4 := p3.adv
        parseFuncCommaLoop fuel st p4 res4 varName [argTok] [defTok]
      else
        parseFuncCommaLoop fuel st p2 res2 varName [argTok] []
    else
      if p1.cur.ty ≠ .RPAREN then
        .ok (res1.fail (.invalidStx "Expected identifier or \x27)\x27"), p1)
      else
        parseFuncBody fuel st p1.adv res1.regAdv varName [] []

/-- The comma loop of `Parser.func_def`, then the optional trailing
default. -/
def parseFuncCommaLoop : Nat → Store → PST → PRes → Option Token →
    List Token → List Token → Except Fault (PRes × PST)
  | 0, _, _, _, _, _, _ => .error .nofuel
  | fuel + 1, st, p, res, varName, argToks, defToks =>
    if p.cur.ty = .COMMA then
      let res1 := res.regAdv
      let p1 := p.adv
      if p1.cur.ty ≠ .IDENTIFIER then
        .ok (res1.fail (.invalidStx "Expected identifier"), p1)
      else
        let argTok := p1.cur
        parseFuncCommaLoop fuel st p1.adv res1.regAdv varName (argToks ++ [argTok]) defToks
    else
      if p.cur.ty = .EQ then
        let res1 := res.regAdv
        let p1 := p.adv
        let defTok := p1.cur
        let res2 := res1.regAdv
        let p2 := p1.adv
        if p2.cur.ty ≠ .RPAREN then
          .ok (res2.fail (.invalidStx "Expected \x27,\x27 \x27=\x27 or \x27)\x27"), p2)
        else
          parseFuncBody fuel st p2.adv res2.regAdv varName argToks (defToks ++ [defTok])
      else
        if p.cur.ty ≠ .RPAREN then
          .ok (res.fail (.invalidStx "Expected \x27,\x27 \x27=\x27 or \x27)\x27"), p)
        else
          parseFuncBody fuel st p.adv res.regAdv varName argToks defToks

/-- The body of `Parser.func_def` after `)`: `=>` expression (auto-return)
or NEWLINE statements `end`. -/
def parseFuncBody : Nat → Store → PST → PRes → Option Token → List Token →
    List Token → Except Fault (PRes × PST)
  | 0, _, _, _, _, _, _ => .error .nofuel
  | fuel + 1, st, p, res, varName, argToks, defToks =>
    if p.cur.ty = .ARROW then
      let res1 := res.regAdv
      let p1 := p.adv
      match parseExpression fuel st p1 with
      | .error f => .error f
      | .ok (child, p2) =>
        let (res2, bodyO) := res1.registerFrom child
        if res2.error.isSome then .ok (res2, p2)
        else
          match bodyO with
          | none => .error (.crash (.unmodelled "expression success holding no node"))
          | some body =>
            .ok (res2.succeed (.funcDef varName argToks defToks body true), p2)
    else if p.cur.ty ≠ .NEWLINE then
      .ok (res.fail (.invalidStx "Expected \x27=>\x27 or NEWLINE"), p)
    else
      let res1 := res.regAdv
      let p1 := p.adv
      match parseStatements fuel st p1 with
      | .error f => .error f
      | .ok (child, p2) =>
        let (res2, bodyO) := res1.registerFrom child
        if res2.error.isSome then .ok (res2, p2)
        else
          match bodyO with
          | none => .error (.crash (.unmodelled "statements success holding no node"))
          | some body =>
            if ¬ p2.cur.isKw "end" then
              .ok (res2.fail (.invalidStx "Expected \x27end\x27"), p2)
            else
              .ok (res2.regAdv.succeed
                (.funcDef varName argToks defToks body false), p2.adv)

end

end PeanutEmbed

namespace PeanutEmbed

/-- Lexer state: current char, the remaining text, and `previous_char`
(positions elided). -/
structure LST where
  cur : Option Char
  rest : List Char
  prev : Option Char

/-- `Lexer.advance`. -/
def LST.advance (l : LST) : LST :=
  { cur := l.rest.head?, rest := l.rest.tail, prev := l.cur }

/-- `Lexer.__init__` (which performs one `advance` from index -1). -/
def LST.init (text : List Char) : LST :=
  { cur := text.head?, rest := text.tail, prev := none }

def isDigitCh (c : Char) : Bool := '0' ≤ c ∧ c ≤ '9'

/-- `string.ascii_letters` membership. -/
def isLetterCh (c : Char) : Bool :=
  ('a' ≤ c ∧ c ≤ 'z') ∨ ('A' ≤ c ∧ c ≤ 'Z')

def isLetterDigitUnd (c : Char) : Bool :=
  isLetterCh c ∨ isDigitCh c ∨ c = '_'


/-- `int(num_str)` for a digit string. -/
def parseIntStr (s : String) : Int :=
  (s.data.foldl (fun a c => a * 10 + (c.toNat - 48)) (0 : Nat) : Nat)

/-- `float(num_str)` for a digit string with at most one dot (the exact
decimal, see header). -/
def parseFloatStr (s : String) : Rat :=
  let ip := s.data.takeWhile (fun c => c ≠ '.')
  let rest := s.data.dropWhile (fun c => c ≠ '.')
  let ipv : Rat := ((ip.foldl (fun a c => a * 10 + (c.toNat - 48)) (0 : Nat) : Nat) : Rat)
  match rest with
  | [] => ipv
  | _ :: frac =>
    ipv + ((frac.foldl (fun a c => a * 10 + (c.toNat - 48)) (0 : Nat) : Nat) : Rat) /
      ((10 : Rat) ^ frac.length)

/-- `Lexer.make_number`: digits and at most one dot (a second dot stops the
scan). -/
def makeNumber : Nat → LST → String → Nat → Except Fault (Token × LST)
  | 0, _, _, _ => .error .nofuel
  | fuel + 1, l, acc, dots =>
    match l.cur with
    | some c =>
      if isDigitCh c then makeNumber fuel l.advance (acc.push c) dots
      else if c = '.' then
        if dots = 1 then
          .ok (⟨.FLOAT, some (.f (parseFloatStr acc))⟩, l)
        else makeNumber fuel l.advance (acc.push '.') (dots + 1)
      else
        if dots = 0 then .ok (⟨.INT, some (.i (parseIntStr acc))⟩, l)
        else .ok (⟨.FLOAT, some (.f (parseFloatStr acc))⟩, l)
    | none =>
      if dots = 0 then .ok (⟨.INT, some (.i (parseIntStr acc))⟩, l)
      else .ok (⟨.FLOAT, some (.f (parseFloatStr acc))⟩, l)

/-- `Lexer.make_identifier`. -/
def makeIdentifier : Nat → LST → String → Except Fault (Token × LST)
  | 0, _, _ => .error .nofuel
  | fuel + 1, l, acc =>
    match l.cur with
    | some c =>
      if isLetterDigitUnd c then makeIdentifier fuel l.advance (acc.push c)
      else
        .ok (⟨if KEYWORDS.contains acc then .KEYWORD else .IDENTIFIER,
              some (.s acc)⟩, l)
    | none =>
      .ok (⟨if KEYWORDS.contains acc then .KEYWORD else .IDENTIFIER,
            some (.s acc)⟩, l)

/-- `Lexer.make_not_equals`. -/
def makeNotEquals (l : LST) : Sum (Token × LST) PErr :=
  let l1 := l.advance
  if l1.cur = some '=' then .inl (⟨.NE, none⟩, l1.advance)
  else .inr (.expectedChar "\x27=\x27 (after \x27!\x27)")

/-- `Lexer.make_equals`. -/
def makeEquals (l : LST) : Token × LST :=
  let l1 := l.advance
  if l1.cur = some '=' then (⟨.EE, none⟩, l1.advance)
  else if l1.cur = some '>' then (⟨.ARROW, none⟩, l1.advance)
  else (⟨.EQ, none⟩, l1)

def makeLessThan (l : LST) : Token × LST :=
  let l1 := l.advance
  if l1.cur = some '=' then (⟨.LTE, none⟩, l1.advance)
  else (⟨.LT, none⟩, l1)

def makeGreaterThan (l : LST) : Token × LST :=
  let l1 := l.advance
  if l1.cur = some '=' then (⟨.GTE, none⟩, l1.advance)
  else (⟨.GT, none⟩, l1)

/-- `Lexer.skip_comment`: advances until a newline; at end of input the
source loops forever (modelled by running out of fuel). -/
def skipComment : Nat → LST → Except Fault LST
  | 0, _ => .error .nofuel
  | fuel + 1, l =>
    match l.cur with
    | some c => if c = '\n' then .ok l.advance else skipComment fuel l.advance
    | none => skipComment fuel l.advance

/-- The `${...}` fragment collector of `Lexer.make_string`: characters up
to the (unnested) closing `}`; at end of input `code + None` raises. -/
def collectCode : Nat → LST → String → Except Fault (String × LST)
  | 0, _, _ => .error .nofuel
  | fuel + 1, l, code =>
    match l.cur with
    | some c =>
      if c = '}' then .ok (code, l.advance)
      else collectCode fuel l.advance (code.push c)
    | none => .error (.crash (.typeErr "can only concatenate str (not NoneType) to str"))

/-- What `run_interpolation` hands back: the `(None, error)` tuple, or
`result.value`. -/
inductive InterpOut where
  | errPair (e : PErr)
  | val (v : Option Value)

def errClassName : PErr → String
  | .illegalChar _ => "IllegalCharError"
  | .expectedChar _ => "ExpectedCharError"
  | .invalidStx _ => "InvalidSyntaxError"
  | .rtErr _ => "RTError"

/-- The `\n`, `\t`, `\$` table of `Lexer.make_string` (note `\$` maps to a
*two*-character replacement). -/
def escMap (c : Char) : String :=
  if c = 'n' then "\n"
  else if c = 't' then "\t"
  else if c = '$' then "\\$"
  else String.singleton c

mutual

/-- `str(code_result)` spliced by `Lexer.make_string`: the str of the
fragment's value, `"None"` for a `None` value, or Python's rendering of the
`(None, error)` tuple (object address elided). -/
def strInterp : Nat → Store → InterpOut → Except Fault String
  | 0, _, _ => .error .nofuel
  | fuel + 1, st, out =>
    match out with
    | .errPair e => .ok ("(None, <peanut." ++ errClassName e ++ " object>)")
    | .val none => .ok "None"
    | .val (some v) => pyStr fuel st v

/-- `Lexer.make_string` after the opening quote: the interpolation check at
string start, then the main loop. -/
def makeString : Nat → LST → Store → Except Fault ((Token × LST) × Store)
  | 0, _, _ => .error .nofuel
  | fuel + 1, l, st =>
    let l1 := l.advance
    if l1.cur = some '$' ∧ l1.prev ≠ some '\\' then
      let l2 := l1.advance
      if l2.cur = some '{' then
        match collectCode fuel l2.advance "" with
        | .error f => .error f
        | .ok (code, l3) =>
          match runInterpolation fuel code st with
          | .error f => .error f
          | .ok (out, st1) =>
            match strInterp fuel st1 out with
            | .error f => .error f
            | .ok spliced => makeStringLoop fuel l3 st1 spliced code false
      else makeStringLoop fuel l2 st "" "" false
    else makeStringLoop fuel l1 st "" "" false

/-- The main loop of `Lexer.make_string`.  `escape` is the
`escape_character` flag: the source resets it right after every `advance`,
so the recursive calls always pass `false`; `code` accumulates fragment
text *across* interpolations (it is never reset). -/
def makeStringLoop : Nat → LST → Store → String → String → Bool →
    Except Fault ((Token × LST) × Store)
  | 0, _, _, _, _, _ => .error .nofuel
  | fuel + 1, l, st, acc, code, escape =>
    match l.cur with
    | none => .ok ((⟨.STRING, some (.s acc)⟩, l.advance), st)
    | some c =>
      if c = '"' ∧ ¬ escape then
        .ok ((⟨.STRING, some (.s acc)⟩, l.advance), st)
      else
        let (acc1, esc1) :=
          if escape then (acc ++ escMap c, escape)
          else if c = '\\' then (acc, true)
          else (acc.push c, escape)
        let l1 := l.advance
        -- escape_character = False here in the source
        let _ := esc1
        if l1.cur = some '$' ∧ l1.prev ≠ some '\\' then
          let l2 := l1.advance
          if l2.cur = some '{' then
            match collectCode fuel l2.advance code with
            | .error f => .error f
            | .ok (code1, l3) =>
              match runInterpolation fuel code1 st with
              | .error f => .error f
              | .ok (out, st1) =>
                match strInterp fuel st1 out with
                | .error f => .error f
                | .ok spliced =>
                  makeStringLoop fuel l3 st1 (acc1 ++ spliced) code1 false
          else makeStringLoop fuel l2 st acc1 code false
        else makeStringLoop fuel l1 st acc1 code false

/-- `Lexer.make_tokens`. -/
def makeTokens : Nat → LST → Store → List Token →
    Except Fault ((Sum (List Token) PErr) × Store)
  | 0, _, _, _ => .error .nofuel
  | fuel + 1, l, st, acc =>
    match l.cur with
    | none => .ok (.inl (acc ++ [⟨.EOF, none⟩]), st)
    | some c =>
      if c = ' ' ∨ c = '\t' then makeTokens fuel l.advance st acc
      else if c = ';' ∨ c = '\n' then
        makeTokens fuel l.advance st (acc ++ [⟨.NEWLINE, none⟩])
      else if c = '#' then
        match skipComment fuel l with
        | .error f => .error f
        | .ok l1 => makeTokens fuel l1 st acc
      else if isDigitCh c then
        match makeNumber fuel l "" 0 with
        | .error f => .error f
        | .ok (t, l1) => makeTokens fuel l1 st (acc ++ [t])
      else if isLetterCh c then
        match makeIdentifier fuel l "" with
        | .error f => .error f
        | .ok (t, l1) => makeTokens fuel l1 st (acc ++ [t])
      else if c = '"' then
        match makeString fuel l st with
        | .error f => .error f
        | .ok ((t, l1), st1) => makeTokens fuel l1 st1 (acc ++ [t])
      else if c = '+' then makeTokens fuel l.advance st (acc ++ [⟨.PLUS, none⟩])
      else if c = '-' then makeTokens fuel l.advance st (acc ++ [⟨.MINUS, none⟩])
      else if c = '*' then makeTokens fuel l.advance st (acc ++ [⟨.MUL, none⟩])
      else if c = '/' then makeTokens fuel l.advance st (acc ++ [⟨.DIV, none⟩])
      else if c = '^' then makeTokens fuel l.advance st (acc ++ [⟨.POW, none⟩])
      else if c = '%' then makeTokens fuel l.advance st (acc ++ [⟨.MOD, none⟩])
      else if c = '(' then makeTokens fuel l.advance st (acc ++ [⟨.LPAREN, none⟩])
      else if c = ')' then makeTokens fuel l.advance st (acc ++ [⟨.RPAREN, none⟩])
      else if c = '[' then makeTokens fuel l.advance st (acc ++ [⟨.LSQUARE, none⟩])
      else if c = ']' then makeTokens fuel l.advance st (acc ++ [⟨.RSQUARE, none⟩])
      else if c = '{' then makeTokens fuel l.advance st (acc ++ [⟨.LCURLY, none⟩])
      else if c = '}' then makeTokens fuel l.advance st (acc ++ [⟨.RCURLY, none⟩])
      else if c = '!' then
        match makeNotEquals l with
        | .inl (t, l1) => makeTokens fuel l1 st (acc ++ [t])
        | .inr e => .ok (.inr e, st)
      else if c = '=' then
        let (t, l1) := makeEquals l
        makeTokens fuel l1 st (acc ++ [t])
      else if c = '<' then
        let (t, l1) := makeLessThan l
        makeTokens fuel l1 st (acc ++ [t])
      else if c = '>' then
        let (t, l1) := makeGreaterThan l
        makeTokens fuel l1 st (acc ++ [t])
      else if c = ',' then makeTokens fuel l.advance st (acc ++ [⟨.COMMA, none⟩])
      else if c = ':' then makeTokens fuel l.advance st (acc ++ [⟨.COLON, none⟩])
      else if c = '?' then makeTokens fuel l.advance st (acc ++ [⟨.QUESTION, none⟩])
      else .ok (.inr (.illegalChar ("\x27" ++ String.singleton c ++ "\x27")), st)

/-- `run_interpolation`: the same pipeline as `run`, handing back
`result.value` (or the `(None, error)` tuple). -/
def runInterpolation : Nat → String → Store → Except Fault (InterpOut × Store)
  | 0, _, _ => .error .nofuel
  | fuel + 1, text, st =>
    match makeTokens fuel (LST.init text.data) st [] with
    | .error f => .error f
    | .ok (.inr e, st1) => .ok (.errPair e, st1)
    | .ok (.inl toks, st1) =>
      match parseProgram fuel st1 ⟨toks, 0⟩ with
      | .error f => .error f
      | .ok (pres, _) =>
        match pres.error with
        | some e => .ok (.errPair e, st1)
        | none =>
          match pres.node with
          | none => .error (.crash (.unmodelled "parse success holding no node"))
          | some ast =>
            match visit fuel ast (Ctx.mk "BASE_LEVEL_SCRIPT" none 1) st1 with
            | .error f => .error f
            | .ok (r, st2) => .ok (.val r.value, st2)

end

/-- `run(fn, text)` minus the filename bookkeeping: lex, parse, evaluate in
a fresh root context whose symbol table is the global table; hand back
`(result.value, result.error)` together with the final store and the full
result channel (for stating invariants). -/
def runFull (fuel : Nat) (text : String) (st : Store) :
    Except Fault ((Sum RTResult PErr) × Store) :=
  match fuel with
  | 0 => .error .nofuel
  | fuel + 1 =>
    match makeTokens fuel (LST.init text.data) st [] with
    | .error f => .error f
    | .ok (.inr e, st1) => .ok (.inr e, st1)
    | .ok (.inl toks, st1) =>
      match parseProgram fuel st1 ⟨toks, 0⟩ with
      | .error f => .error f
      | .ok (pres, _) =>
        match pres.error with
        | some e => .ok (.inr e, st1)
        | none =>
          match pres.node with
          | none => .error (.crash (.unmodelled "parse success holding no node"))
          | some ast =>
            match visit fuel ast (Ctx.mk "BASE_LEVEL_SCRIPT" none 1) st1 with
            | .error f => .error f
            | .ok (r, st2) => .ok (.inl r, st2)

/-- The pair `run` returns: `(None, error)` on a lexer or parser error,
else `(result.value, result.error)`. -/
def runP (fuel : Nat) (text : String) (st : Store) :
    Except Fault ((Option Value × Option PErr) × Store) :=
  match runFull fuel text st with
  | .error f => .error f
  | .ok (.inr e, st1) => .ok ((none, some e), st1)
  | .ok (.inl r, st1) => .ok ((r.value, r.error), st1)

/-- A global-table entry made by a plain `set(name, value)` during module
initialization. -/
def gEntry (v : Value) : TblEntry := ⟨some v, false, false, false, none⟩

/-- The module-level state after initialization: the empty locked table
(cell 0) and the seeded global table (cell 1), in the order of the source's
`set` calls. -/
def initStore : Store :=
  { tables :=
    [ ⟨[], none⟩,
      ⟨[ ("NO_RETURN", gEntry noReturn),
         ("ZERO", gEntry (.number (.i 0))),
         ("FALSE_VALUE", gEntry (.number (.i 0))),
         ("TRUE_VALUE", gEntry (.number (.i 1))),
         ("false", gEntry (.number (.i 0))),
         ("true", gEntry (.number (.i 1))),
         ("INFINITY", gEntry (.number .inf)),
         ("NEGATIVE_INF", gEntry (.number .ninf)),
         ("print", gEntry (.builtin "print" none)),
         ("printReturn", gEntry (.builtin "print_return" none)),
         ("input", gEntry (.builtin "input" none)),
         ("inputNumber", gEntry (.builtin "input_int" none)),
         ("cls", gEntry (.builtin "clear" none)),
         ("isNumber", gEntry (.builtin "is_number" none)),
         ("isString", gEntry (.builtin "is_string" none)),
         ("isArray", gEntry (.builtin "is_array" none)),
         ("isFunction", gEntry (.builtin "is_function" none)),
         ("typeof", gEntry (.builtin "typeof" none)),
         ("append", gEntry (.builtin "append" none)),
         ("removeIndex", gEntry (.builtin "remove" none)),
         ("concat", gEntry (.builtin "concat" none)),
         ("length", gEntry (.builtin "len" none)),
         ("time", gEntry (.builtin "time" none)),
         ("b64Encode", gEntry (.builtin "base64_encode" none)),
         ("b64Decode", gEntry (.builtin "base64_decode" none)),
         ("toUnicode", gEntry (.builtin "number_to_unicode" none)),
         ("fromUnicode", gEntry (.builtin "unicode_to_number" none)),
         ("formatNumber", gEntry (.builtin "format_number" none)),
         ("run", gEntry (.builtin "run" none)),
         ("use", gEntry (.builtin "use" none)),
         ("read", gEntry (.builtin "read" none)) ], none⟩ ],
    arrays := [] }

end PeanutEmbed

namespace PeanutEmbed

/-- The root execution context `run` builds. -/
def rootCtx : Ctx := Ctx.mk "BASE_LEVEL_SCRIPT" none 1

/-- A sequence of `SymbolTable.set` calls. -/
def bindSeq (t : Tbl) (bs : List (String × TblEntry)) : Tbl :=
  bs.foldl (fun acc b => acc.setE b.1 b.2) t

/-- The entry `populate_args` makes for an unsupplied parameter: a `Number`
wrapping the default literal's stripped repr text. -/
def defaultEntry (d : Token) : TblEntry :=
  ⟨some (.number (.s (defaultFixed d))), false, false, false, none⟩

/-- The entry `populate_args` makes for a positional argument. -/
def argEntry (ctx : Ctx) (v : Option Value) : TblEntry :=
  ⟨v.map (fun w => w.setCtx ctx), false, false, false, none⟩

/-- A store with the empty locked table, a given global table, and one
child table (cell 2) holding a single binding - the scope shape of a
function body accessing its own local. -/
def accessStore (glEntries : List (String × TblEntry)) (name : String)
    (e : TblEntry) : Store :=
  ⟨[⟨[], none⟩, ⟨glEntries, none⟩, ⟨[(name, e)], some 1⟩], []⟩

/-- A non-root context over table cell 2. -/
def childCtx (p : Ctx) : Ctx := Ctx.mk "f" (some p) 2

end PeanutEmbed

namespace PeanutEmbed

/-- C2: the claim's arity rule fails on the code.  With 3 parameters and 1
default, supplying 2 arguments satisfies the claim's pass condition
`P − D ≤ A ≤ P` (2 ≤ 2 ≤ 3), yet `check_args` rejects the call with
"1 too few args"; its too-few test is `A < P and A > D`, not `A < P − D`. -/
theorem C2_counterexample :
    checkArgs "<function f>" ["x", "y", "z"] (some [⟨.INT, some (.i 1)⟩])
        [some (.number (.i 0)), some (.number (.i 0))]
      = .ok (RTResult.failure (.rtErr "1 too few args passed into <function f>"))
    ∧ (3 : Nat) - 1 ≤ 2 ∧ (2 : Nat) ≤ 3 :=
  ⟨rfl, by decide, by decide⟩

/-- C2 (amended): `check_args` with a defaults list rejects
"N too many args" (N = A − P) exactly when A > P, rejects
"N too few args" (N = P − A) exactly when D < A < P, and passes otherwise -
i.e. when A = P or A ≤ min(D, P); the number of *required* parameters
P − D plays no role. -/
theorem C2_check_args (selfRepr : String) (argNames : List String)
    (argDefaults : List Token) (args : List (Option Value)) :
    checkArgs selfRepr argNames (some argDefaults) args =
      .ok (if args.length > argNames.length then
             RTResult.failure (.rtErr (toString (args.length - argNames.length) ++
               " too many args passed into " ++ selfRepr))
           else if argDefaults.length < args.length ∧ args.length < argNames.length then
             RTResult.failure (.rtErr (toString (argNames.length - args.length) ++
               " too few args passed into " ++ selfRepr))
           else RTResult.success none) := by
  unfold checkArgs
  by_cases h1 : args.length > argNames.length
  · simp [h1]
  · by_cases h2 : args.length < argNames.length
    · by_cases h3 : args.length > argDefaults.length
      · simp [h1, h2, h3]
      · simp [h1, h2, h3]
    · simp [h1, h2]

end PeanutEmbed

namespace PeanutEmbed

/-- C5: the claim fails on the code.  `Number(1) and Number(2)` - both
operands non-zero - does not yield `Bool(1)`: `Number.anded_by` computes
`Bool(int(1 and 2)) = Bool(2)`, and `Bool(2).is_true()` is false (it tests
`value == 1`), so the result's truthiness is not the conjunction's truth
value either. -/
theorem C5_counterexample :
    Number.andedBy (.i 1) (some (.number (.i 2))) = .ok (.inl (some (.boolV 2)))
    ∧ Value.boolV 2 ≠ Value.boolV 1
    ∧ Value.isTrue (.boolV 2) = .ok false
    ∧ (1 : Int) ≠ 0 ∧ (2 : Int) ≠ 0 :=
  ⟨rfl, by simp, by simp [Value.isTrue], by decide, by decide⟩

/-- C5 (amended): on int-payload `Number`s, `a and b` evaluates to
`Bool(a)` when a = 0 and `Bool(b)` otherwise (Python's value-returning
`and` fed through `int` into the `Bool` payload), and `a or b` evaluates to
`Bool(a)` when a ≠ 0 and `Bool(b)` otherwise.  The result is `Bool(1)` /
`Bool(0)` mirroring the logical operation only when the relevant operand
payloads are already 0 or 1. -/
theorem C5_and_or (a b : Int) :
    Number.andedBy (.i a) (some (.number (.i b)))
      = .ok (.inl (some (.boolV (if a = 0 then a else b))))
    ∧ Number.oredBy (.i a) (some (.number (.i b)))
      = .ok (.inl (some (.boolV (if a = 0 then b else a)))) := by
  constructor
  · by_cases h : a = 0 <;>
      simp [Number.andedBy, PyNum.pyAnd, PyNum.truthy, PyNum.toIntE, h,
        Except.bind]
  · by_cases h : a = 0 <;>
      simp [Number.oredBy, PyNum.pyOr, PyNum.truthy, PyNum.toIntE, h,
        Except.bind]

/-- C7: `Number.modded_by` on int payloads is the floored modulo
`a − b·⌊a/b⌋` for a non-zero divisor and the "Division by zero" runtime
error for a zero divisor; likewise on float payloads (modelled as exact
rationals). -/
theorem C7_modulo (a b : Int) (x y : Rat) :
    (b ≠ 0 → Number.moddedBy (.i a) (some (.number (.i b)))
        = .ok (.inl (some (.number (.i (a - b * Int.fdiv a b))))))
    ∧ (b = 0 → Number.moddedBy (.i a) (some (.number (.i b)))
        = .ok (.inr (.rtErr "Division by zero")))
    ∧ (y ≠ 0 → Number.moddedBy (.f x) (some (.number (.f y)))
        = .ok (.inl (some (.number (.f (x - y * (⌊x / y⌋ : Rat)))))))
    ∧ (y = 0 → Number.moddedBy (.f x) (some (.number (.f y)))
        = .ok (.inr (.rtErr "Division by zero"))) := by
  refine ⟨fun h => ?_, fun h => ?_, fun h => ?_, fun h => ?_⟩ <;>
    simp [Number.moddedBy, PyNum.isZero, PyNum.modBody, h, Except.bind]

/-- C7 witness: 7 % 2 = 1 = 7 − 2·⌊7/2⌋, and 5 % 0 is the division-by-zero
runtime error. -/
theorem C7_witness :
    Number.moddedBy (.i 7) (some (.number (.i 2)))
        = .ok (.inl (some (.number (.i 1))))
    ∧ Number.moddedBy (.i 5) (some (.number (.i 0)))
        = .ok (.inr (.rtErr "Division by zero")) := by
  refine ⟨?_, (C7_modulo 5 0 0 0).2.1 rfl⟩
  have h := (C7_modulo 7 2 0 0).1 (by decide)
  simpa using h

end PeanutEmbed


namespace PeanutEmbed

/-- The observation a run theorem projects out of a completed `runP`: the
returned pair, one array cell, and up to two global-table bindings. -/
def runObs (prog : String) (fuel : Nat) (cell : Nat) (n1 n2 : String) :
    Except Fault ((Option Value × Option PErr) × Option (List (Option Value)) ×
      Option TblEntry × Option TblEntry) :=
  (runP fuel prog initStore).map
    (fun r => (r.1, r.2.getArr cell,
      (r.2.tbl 1).bind (fun t => t.find n1),
      (r.2.tbl 1).bind (fun t => t.find n2)))

/-- C9: `b64Decode` is not the inverse of `b64Encode`: `execute_base64_decode`
re-encodes its input and decodes that, so it is the identity on ASCII
strings.  `b64Decode(b64Encode("A"))` yields "QQ==", not "A" - at the
string level and through the full pipeline. -/
theorem C9_b64_roundtrip :
    b64encodePy "A" = .ok "QQ=="
    ∧ b64decodePy "QQ==" = .ok "QQ=="
    ∧ ("QQ==" : String) ≠ "A"
    ∧ runObs "b64Decode(b64Encode(\"A\"))" 300 0 "A" "A"
        = .ok ((some (.arr 0), none), some [some (.strV (.s "QQ=="))],
               none, none) :=
  ⟨rfl, rfl, by decide, rfl⟩

/-- C3: evaluating `a + v` on an `Array` mutates the operand in place.
After `var a = [1]` and `var b = a + 2`, the element cell that `a`'s
binding references holds `[1, 2]`, and `b` references the *same* cell:
`Array.copy` passes `self.elements` to the constructor, so "copy-on-write"
never copies the element list. -/
theorem C3_array_add_mutates :
    runObs "var a = [1]\nvar b = a + 2" 300 0 "a" "b"
      = .ok ((some (.arr 1), none),
             some [some (.number (.i 1)), some (.number (.i 2))],
             some ⟨some (.arr 0), true, false, false, none⟩,
             some ⟨some (.arr 0), true, false, false, none⟩) := rfl

/-- C6: a single program holding both strict declarations parses *without*
error and evaluates to completion - the parse-time strict check consults
the global runtime table, which is only populated during evaluation, after
the whole program has been parsed.  The final binding of `n` is the
`String "a"` with recorded type "string". -/
theorem C6_counterexample :
    runObs "strict int n = 5\nstrict string n = \"a\"" 300 0 "n" "n"
      = .ok ((some (.arr 0), none),
             some [some (.number (.i 5)), some (.strV (.s "a"))],
             some ⟨some (.strV (.s "a")), true, false, true, some "string"⟩,
             some ⟨some (.strV (.s "a")), true, false, true, some "string"⟩) := rfl

/-- C6 (amended): the InvalidSyntax rejection fires when the redeclaration
is *parsed after* the original strict declaration has been evaluated: run
as two successive `run` calls sharing the global table, the second fails at
parse time with "Cannot assign 'strict' variable to different type!". -/
theorem C6_across_runs :
    ((runP 300 "strict int n = 5" initStore).bind (fun r =>
        (runP 300 "strict string n = \"a\"" r.2).map (fun r2 => (r.1.1, r2.1))))
      = .ok (some (.arr 0),
             (none, some (.invalidStx
               "Cannot assign \x27strict\x27 variable to different type!"))) := rfl

/-- C8: fragments are not evaluated independently: the fragment buffer
`code` is never reset, so in `"a${1}b${2}c"` the second interpolation
evaluates the accumulated text "12" (array cell 1 holds its result, 12) and
the string lexes to "a1b12c", not "a1b2c". -/
theorem C8_counterexample :
    runObs "var s = \"a${1}b${2}c\"" 400 1 "s" "s"
      = .ok ((some (.arr 2), none), some [some (.number (.i 12))],
             some ⟨some (.strV (.s "a1b12c")), true, false, false, none⟩,
             some ⟨some (.strV (.s "a1b12c")), true, false, false, none⟩)
    ∧ ("a1b12c" : String) ≠ "a1b2c" :=
  ⟨rfl, by decide⟩

/-- C8 (amended): a single `${...}` fragment is evaluated in the global
context and its result's string form spliced in place: `var s = "x=${1+2}"`
binds `s` to `"x=3"` (the fragment "1+2" evaluating to `[3]`, whose str is
"3").  With several fragments in one literal the collected fragment text
accumulates, each later fragment evaluating the concatenation of all
fragment texts so far: `"a${1}b${2}c"` gives "a1b12c" (second fragment
evaluation: "12"). -/
theorem C8_interpolation :
    runObs "var s = \"x=${1+2}\"" 300 0 "s" "s"
      = .ok ((some (.arr 1), none), some [some (.number (.i 3))],
             some ⟨some (.strV (.s "x=3")), true, false, false, none⟩,
             some ⟨some (.strV (.s "x=3")), true, false, false, none⟩)
    ∧ runObs "var s = \"a${1}b${2}c\"" 400 1 "s" "s"
        = .ok ((some (.arr 2), none), some [some (.number (.i 12))],
               some ⟨some (.strV (.s "a1b12c")), true, false, false, none⟩,
               some ⟨some (.strV (.s "a1b12c")), true, false, false, none⟩) :=
  ⟨rfl, rfl⟩

/-- C1: three completing runs on which both components of the returned
pair are null: a bare top-level `break`, `continue` or `return` leaves the
channel's signal flag set, `visit` propagates it without setting a value or
an error, and `run` hands back `(None, None)`. -/
theorem C1_counterexample :
    runP 50 "break" initStore = .ok ((none, none), initStore)
    ∧ runP 50 "continue" initStore = .ok ((none, none), initStore)
    ∧ runP 50 "return" initStore = .ok ((none, none), initStore) :=
  ⟨rfl, rfl, rfl⟩

end PeanutEmbed

namespace PeanutEmbed

/-- C4: the claim fails on the code.  Calling a function whose single
parameter has the quoted-string default `"hi"` with no arguments binds the
parameter to `Number("hi")` - a `Number` wrapping the literal's text - and
not to a `String` value. -/
theorem C4_counterexample :
    populateArgs rootCtx ["a"] (some [⟨.STRING, some (.s "hi")⟩]) [] ⟨[], none⟩
      = .ok ⟨[("a", ⟨some (.number (.s "hi")), false, false, false, none⟩)], none⟩
    ∧ ∀ p, Value.number (.s "hi") ≠ Value.strV p :=
  ⟨rfl, fun _ h => Value.noConfusion h⟩

set_option maxRecDepth 4000 in
theorem populateAux_defaults (ctx : Ctx) (names : List String)
    (defaults : List Token) (t : Tbl) (i rem : Nat)
    (h1 : i + rem ≤ names.length) (h2 : i + rem ≤ defaults.length) :
    populateArgsAux ctx names defaults [] t i rem
      = .ok (bindSeq t ((List.range rem).map (fun k =>
          (names.getD (i + k) "",
           defaultEntry (defaults.getD (i + k) ⟨.EOF, none⟩))))) := by
  induction rem generalizing t i with
  | zero => simp [populateArgsAux, bindSeq]
  | succ n ih =>
    have hi1 : i < names.length := by omega
    have hi2 : i < defaults.length := by omega
    have hn : names.getD i "" = names.get ⟨i, hi1⟩ := by
      simp [List.getD_eq_getElem?_getD, List.getElem?_eq_getElem hi1]
    have hd : defaults.getD i ⟨TokType.EOF, none⟩ = defaults.get ⟨i, hi2⟩ := by
      simp [List.getD_eq_getElem?_getD, List.getElem?_eq_getElem hi2]
    have hr : (List.range (n + 1)).map (fun k =>
          (names.getD (i + k) "",
           defaultEntry (defaults.getD (i + k) ⟨TokType.EOF, none⟩)))
        = (names.getD i "", defaultEntry (defaults.getD i ⟨TokType.EOF, none⟩))
          :: (List.range n).map (fun k =>
          (names.getD (i + 1 + k) "",
           defaultEntry (defaults.getD (i + 1 + k) ⟨TokType.EOF, none⟩))) := by
      rw [List.range_succ_eq_map, List.map_cons, List.map_map]
      have hc : (fun k =>
            (names.getD (i + k) "",
             defaultEntry (defaults.getD (i + k) ⟨TokType.EOF, none⟩))) ∘ Nat.succ
          = fun k =>
            (names.getD (i + 1 + k) "",
             defaultEntry (defaults.getD (i + 1 + k) ⟨TokType.EOF, none⟩)) := by
        funext k
        have he : i + Nat.succ k = i + 1 + k := by omega
        simp [Function.comp, he]
      rw [hc]
      simp
    unfold populateArgsAux
    simp only [List.get?_eq_get hi1, List.get?_eq_get hi2, List.length_nil,
      eq_self_iff_true, or_true, ite_true]
    rw [ih _ (i + 1) (by omega) (by omega), hr, hn, hd]
    rfl

set_option maxRecDepth 4000 in
theorem populateAux_positional (ctx : Ctx) (names : List String)
    (defaults : List Token) (args : List (Option Value)) (t : Tbl) (i rem : Nat)
    (h1 : i + rem ≤ names.length) (h2 : i + rem ≤ args.length) :
    populateArgsAux ctx names defaults args t i rem
      = .ok (bindSeq t ((List.range rem).map (fun k =>
          (names.getD (i + k) "", argEntry ctx (args.getD (i + k) none))))) := by
  induction rem generalizing t i with
  | zero => simp [populateArgsAux, bindSeq]
  | succ n ih =>
    have hi1 : i < names.length := by omega
    have hi2 : i < args.length := by omega
    have hcond : ¬(args.length < i ∨ args.length = 0) := by omega
    have hn : names.getD i "" = names.get ⟨i, hi1⟩ := by
      simp [List.getD_eq_getElem?_getD, List.getElem?_eq_getElem hi1]
    have ha : args.getD i none = args.get ⟨i, hi2⟩ := by
      simp [List.getD_eq_getElem?_getD, List.getElem?_eq_getElem hi2]
    have hr : (List.range (n + 1)).map (fun k =>
          (names.getD (i + k) "", argEntry ctx (args.getD (i + k) none)))
        = (names.getD i "", argEntry ctx (args.getD i none))
          :: (List.range n).map (fun k =>
          (names.getD (i + 1 + k) "", argEntry ctx (args.getD (i + 1 + k) none))) := by
      rw [List.range_succ_eq_map, List.map_cons, List.map_map]
      have hc : (fun k =>
            (names.getD (i + k) "", argEntry ctx (args.getD (i + k) none))) ∘ Nat.succ
          = fun k =>
            (names.getD (i + 1 + k) "", argEntry ctx (args.getD (i + 1 + k) none)) := by
        funext k
        have he : i + Nat.succ k = i + 1 + k := by omega
        simp [Function.comp, he]
      rw [hc]
      simp
    unfold populateArgsAux
    simp only [List.get?_eq_get hi1, List.get?_eq_get hi2, if_neg hcond]
    rw [ih _ (i + 1) (by omega) (by omega), hr, hn, ha]
    rfl

theorem populateAux_crash (ctx : Ctx) (names : List String)
    (defaults : List Token) (args : List (Option Value)) (t : Tbl) (i rem : Nat)
    (h0 : 0 < args.length) (h1 : i ≤ args.length) (h2 : args.length < i + rem)
    (h3 : args.length < names.length) :
    populateArgsAux ctx names defaults args t i rem = .error .indexErr := by
  induction rem generalizing t i with
  | zero => omega
  | succ n ih =>
    have hi1 : i < names.length := by omega
    unfold populateArgsAux
    have hcond : ¬(args.length < i ∨ args.length = 0) := by omega
    by_cases hlt : i < args.length
    · simp only [List.get?_eq_get hi1, List.get?_eq_get hlt, if_neg hcond]
      exact ih _ (i + 1) (by omega) (by omega)
    · have hnone : args.get? i = none := List.get?_eq_none.mpr (by omega)
      simp only [List.get?_eq_get hi1, hnone, if_neg hcond]

/-- C4 (amended): `populate_args` with a nonempty default list loops over the
*defaults*, not the parameters.  (1) With no supplied arguments every one of
the first `|defaults|` parameters is bound to `Number` of its default
literal's stripped text - never to a `String` value, and parameters past
`|defaults|` stay unbound.  (2) With at least `|defaults|` arguments the
first `|defaults|` parameters are bound positionally (later arguments are
dropped).  (3) With `0 < |args| < |defaults|` the call crashes with a Python
`IndexError` instead of using the remaining defaults. -/
theorem C4_populate (ctx : Ctx) (argNames : List String)
    (argDefaults : List Token) (args : List (Option Value)) (t : Tbl)
    (hD : argDefaults ≠ []) (hP : argDefaults.length ≤ argNames.length) :
    (args = [] →
      populateArgs ctx argNames (some argDefaults) args t
        = .ok (bindSeq t ((List.range argDefaults.length).map (fun k =>
            (argNames.getD k "",
             defaultEntry (argDefaults.getD k ⟨.EOF, none⟩))))))
    ∧ (argDefaults.length ≤ args.length →
      populateArgs ctx argNames (some argDefaults) args t
        = .ok (bindSeq t ((List.range argDefaults.length).map (fun k =>
            (argNames.getD k "", argEntry ctx (args.getD k none))))))
    ∧ (0 < args.length → args.length < argDefaults.length →
      populateArgs ctx argNames (some argDefaults) args t
        = .error .indexErr) := by
  have hlen : argDefaults.length ≠ 0 := by
    intro h
    exact hD (List.eq_nil_of_length_eq_zero h)
  have hb : (argDefaults.length != 0) = true := bne_iff_ne.mpr hlen
  refine ⟨?_, ?_, ?_⟩
  · intro hA
    subst hA
    simp only [populateArgs, Option.getD_some, hb, if_true]
    have h := populateAux_defaults ctx argNames argDefaults t 0 argDefaults.length
      (by omega) (by omega)
    simpa [Nat.zero_add] using h
  · intro hA
    simp only [populateArgs, Option.getD_some, hb, if_true]
    have h := populateAux_positional ctx argNames argDefaults args t 0
      argDefaults.length (by omega) (by omega)
    simpa [Nat.zero_add] using h
  · intro h0 hA
    simp only [populateArgs, Option.getD_some, hb, if_true]
    exact populateAux_crash ctx argNames argDefaults args t 0 argDefaults.length
      h0 (by omega) (by omega) (by omega)

/-- Witness for C4_populate at concrete inputs: one default and no argument
binds the default; one argument against two defaults crashes. -/
theorem C4_witness :
    populateArgs rootCtx ["a", "b"] (some [⟨.INT, some (.i 3)⟩]) [] ⟨[], none⟩
      = .ok (bindSeq ⟨[], none⟩ ((List.range
          ([⟨TokType.INT, some (.i 3)⟩] : List Token).length).map (fun k =>
          (["a", "b"].getD k "",
           defaultEntry (([⟨TokType.INT, some (.i 3)⟩] : List Token).getD k
             ⟨.EOF, none⟩)))))
    ∧ populateArgs rootCtx ["a", "b"]
        (some [⟨.INT, some (.i 3)⟩, ⟨.INT, some (.i 4)⟩])
        [some (.number (.i 7))] ⟨[], none⟩ = .error .indexErr :=
  ⟨(C4_populate rootCtx ["a", "b"] [⟨.INT, some (.i 3)⟩] [] ⟨[], none⟩
      (by decide) (by decide)).1 rfl,
   (C4_populate rootCtx ["a", "b"] [⟨.INT, some (.i 3)⟩, ⟨.INT, some (.i 4)⟩]
      [some (.number (.i 7))] ⟨[], none⟩ (by decide) (by decide)).2.2
      (by decide) (by decide)⟩

/-- C10: the claim's error behaviour fails on the code.  With `n` bound to
`String("")` in the child context's table (not scoped) and no global binding
for `n`, the access neither falls back to a global value nor raises an
`RTError`: `global_symbol_table.get` returns Python `None`, and calling
`.copy()` on it crashes the interpreter with an `AttributeError`. -/
theorem C10_counterexample :
    visitAccessNode 5 "n" (childCtx rootCtx)
        (accessStore [] "n" ⟨some (.strV (.s "")), true, false, false, none⟩)
      = .error (.crash (.attrErr "NoneType object has no attribute copy")) := rfl

/-- C10 (amended): characterization of `visit_AccessNode` on a name bound in
the current (child) context's table.  `String("")` is the unique falsy
runtime value.  A truthy binding is returned as a copy with the access
context.  For the falsy binding the lookup ignores it: scoped ⇒ RTError
"not defined or not in this scope"; not scoped ⇒ the *global* binding's copy
when one exists, else a crash with Python `AttributeError` (`None.copy()`).
A `String` wrapping a non-`str` payload crashes during the truthiness
test. -/
theorem C10_access (fuel : Nat) (name : String) (v : Value)
    (isVar scp isStrict : Bool) (ty : Option String)
    (gl : List (String × TblEntry)) (p : Ctx) :
    (pyTruthy v = .ok false ↔ v = .strV (.s ""))
    ∧ (pyTruthy v = .ok true →
        visitAccessNode (fuel + 1) name (childCtx p)
            (accessStore gl name ⟨some v, isVar, scp, isStrict, ty⟩)
          = .ok (RTResult.success (some (v.copy.setCtx (childCtx p))),
              accessStore gl name ⟨some v, isVar, scp, isStrict, ty⟩))
    ∧ (pyTruthy v = .ok false → scp = true →
        visitAccessNode (fuel + 1) name (childCtx p)
            (accessStore gl name ⟨some v, isVar, scp, isStrict, ty⟩)
          = .ok (RTResult.failure (.rtErr
              ("\x27" ++ name ++ "\x27 is not defined or not in this scope.")),
              accessStore gl name ⟨some v, isVar, scp, isStrict, ty⟩))
    ∧ (∀ w, pyTruthy v = .ok false → scp = false →
        (accessStore gl name ⟨some v, isVar, scp, isStrict, ty⟩).symGet
            (fuel + 1) 1 name = some w →
        visitAccessNode (fuel + 1) name (childCtx p)
            (accessStore gl name ⟨some v, isVar, scp, isStrict, ty⟩)
          = .ok (RTResult.success (some (w.copy.setCtx (childCtx p))),
              accessStore gl name ⟨some v, isVar, scp, isStrict, ty⟩))
    ∧ (pyTruthy v = .ok false → scp = false →
        (accessStore gl name ⟨some v, isVar, scp, isStrict, ty⟩).symGet
            (fuel + 1) 1 name = none →
        visitAccessNode (fuel + 1) name (childCtx p)
            (accessStore gl name ⟨some v, isVar, scp, isStrict, ty⟩)
          = .error (.crash (.attrErr "NoneType object has no attribute copy")))
    ∧ (∀ c, pyTruthy v = .error c →
        visitAccessNode (fuel + 1) name (childCtx p)
            (accessStore gl name ⟨some v, isVar, scp, isStrict, ty⟩)
          = .error (.crash c)) := by
  have hv : (accessStore gl name ⟨some v, isVar, scp, isStrict, ty⟩).symGet
      (fuel + 1) 2 name = some v := by
    simp [accessStore, Store.symGet, Store.tbl, Tbl.find]
  have hs : (accessStore gl name ⟨some v, isVar, scp, isStrict, ty⟩).getScope
      (fuel + 1) 2 name = some (.inl scp) := by
    simp [accessStore, Store.getScope, Store.tbl, Tbl.find]
  refine ⟨?_, ?_, ?_, ?_, ?_, ?_⟩
  · constructor
    · intro h
      cases v with
      | strV pl =>
        cases pl with
        | s str =>
          simp only [pyTruthy, Except.ok.injEq, decide_eq_false_iff_not,
            ne_eq, not_not] at h
          subst h
          rfl
        | obj w => simp [pyTruthy] at h
        | pyNone => simp [pyTruthy] at h
      | number n => simp [pyTruthy] at h
      | arr r => simp [pyTruthy] at h
      | boolV b => simp [pyTruthy] at h
      | funcV n b an ad ar c => simp [pyTruthy] at h
      | builtin n c => simp [pyTruthy] at h
    · intro h
      subst h
      rfl
  · intro ht
    simp [visitAccessNode, childCtx, Ctx.parent, Ctx.tableRef, hv, hs, pyTruthyOpt, ht]
  · intro ht hsc
    subst hsc
    simp [visitAccessNode, childCtx, Ctx.parent, Ctx.tableRef, hv, hs, pyTruthyOpt, ht]
  · intro w ht hsc hg
    subst hsc
    simp [visitAccessNode, childCtx, Ctx.parent, Ctx.tableRef, hv, hs, pyTruthyOpt, ht, hg]
  · intro ht hsc hg
    subst hsc
    simp [visitAccessNode, childCtx, Ctx.parent, Ctx.tableRef, hv, hs, pyTruthyOpt, ht, hg]
  · intro c ht
    simp [visitAccessNode, childCtx, Ctx.parent, Ctx.tableRef, hv, hs, pyTruthyOpt, ht]

/-- Witness for C10_access at concrete inputs: a truthy `Number(7)` binding
is returned; `String("")` with a global `Number(1)` binding yields the
global value; `String("")` scoped yields the RTError. -/
theorem C10_witness :
    (pyTruthy (.number (.i 7)) = .ok false
      ↔ (Value.number (.i 7)) = .strV (.s ""))
    ∧ visitAccessNode 5 "n" (childCtx rootCtx)
        (accessStore [] "n" ⟨some (.number (.i 7)), true, false, false, none⟩)
      = .ok (RTResult.success
          (some ((Value.number (.i 7)).copy.setCtx (childCtx rootCtx))),
          accessStore [] "n" ⟨some (.number (.i 7)), true, false, false, none⟩)
    ∧ visitAccessNode 5 "n" (childCtx rootCtx)
        (accessStore [("n", ⟨some (.number (.i 1)), false, false, false, none⟩)]
          "n" ⟨some (.strV (.s "")), true, false, false, none⟩)
      = .ok (RTResult.success
          (some ((Value.number (.i 1)).copy.setCtx (childCtx rootCtx))),
          accessStore [("n", ⟨some (.number (.i 1)), false, false, false, none⟩)]
            "n" ⟨some (.strV (.s "")), true, false, false, none⟩)
    ∧ visitAccessNode 5 "n" (childCtx rootCtx)
        (accessStore [] "n" ⟨some (.strV (.s "")), true, true, false, none⟩)
      = .ok (RTResult.failure (.rtErr
          ("\x27" ++ "n" ++ "\x27 is not defined or not in this scope.")),
          accessStore [] "n" ⟨some (.strV (.s "")), true, true, false, none⟩) :=
  ⟨(C10_access 4 "n" (.number (.i 7)) true false false none [] rootCtx).1,
   (C10_access 4 "n" (.number (.i 7)) true false false none [] rootCtx).2.1 rfl,
   (C10_access 4 "n" (.strV (.s "")) true false false none
      [("n", ⟨some (.number (.i 1)), false, false, false, none⟩)] rootCtx).2.2.2.1
      (.number (.i 1)) rfl rfl rfl,
   (C10_access 4 "n" (.strV (.s "")) true true false none [] rootCtx).2.2.1
      rfl rfl⟩

theorem skipNewlines_fields (fuel : Nat) (res : PRes) (p : PST)
    (res1 : PRes) (p1 : PST) (n : Nat)
    (h : skipNewlines fuel res p = .ok (res1, p1, n)) :
    res1.error = res.error ∧ res1.node = res.node := by
  induction fuel generalizing res p res1 p1 n with
  | zero => simp [skipNewlines] at h
  | succ f ih =>
    unfold skipNewlines at h
    by_cases hc : p.cur.ty = .NEWLINE
    · rw [if_pos hc] at h
      cases hrec : skipNewlines f res.regAdv p.adv with
      | error fe => rw [hrec] at h; exact Except.noConfusion h
      | ok trip =>
        obtain ⟨r2, p2, m⟩ := trip
        rw [hrec] at h
        simp only [Except.bind, bind, Except.ok.injEq, Prod.mk.injEq] at h
        obtain ⟨h1, _, _⟩ := h
        subst h1
        have := ih res.regAdv p.adv r2 p2 m hrec
        simpa [PResT.regAdv] using this
    · rw [if_neg hc] at h
      simp only [Except.ok.injEq, Prod.mk.injEq] at h
      obtain ⟨h1, _, _⟩ := h
      subst h1
      exact ⟨rfl, rfl⟩

theorem parseStatementsLoop_node (fuel : Nat) (st : Store) (p : PST)
    (res : PRes) (stmts : List PNode) (more : Bool) (res' : PRes) (p' : PST)
    (h : parseStatementsLoop fuel st p res stmts more = .ok (res', p')) :
    ∃ l, res'.node = some (.arrayNode l) := by
  induction fuel generalizing p res stmts more res' p' with
  | zero => simp [parseStatementsLoop] at h
  | succ f ih =>
    unfold parseStatementsLoop at h
    cases hsk : skipNewlines f res p with
    | error fe => rw [hsk] at h; exact Except.noConfusion h
    | ok trip =>
      obtain ⟨res1, p1, cnt⟩ := trip
      rw [hsk] at h
      dsimp only at h
      by_cases hm : (if cnt = 0 then false else more) = true
      · rw [hm] at h
        simp only [not_true, if_neg, Bool.true_eq_false, if_false] at h
        cases hps : parseStatement f st p1 with
        | error fe => rw [hps] at h; exact Except.noConfusion h
        | ok pr =>
          obtain ⟨child, p2⟩ := pr
          rw [hps] at h
          dsimp only at h
          by_cases hce : child.error.isSome = true
          · rw [if_pos hce] at h
            exact ih _ _ _ _ _ _ h
          · rw [if_neg hce] at h
            dsimp only [PResT.registerFrom] at h
            cases hcn : child.node with
            | none => rw [hcn] at h; exact Except.noConfusion h
            | some stmt =>
              rw [hcn] at h
              exact ih _ _ _ _ _ _ h
      · rw [Bool.not_eq_true] at hm
        rw [hm] at h
        simp only [Bool.false_eq_true, not_false_iff, if_true,
          Except.ok.injEq, Prod.mk.injEq] at h
        obtain ⟨h1, _⟩ := h
        subst h1
        exact ⟨stmts, rfl⟩

theorem parseStatements_node (fuel : Nat) (st : Store) (p : PST)
    (res' : PRes) (p' : PST)
    (h : parseStatements fuel st p = .ok (res', p'))
    (he : res'.error = none) :
    ∃ l, res'.node = some (.arrayNode l) := by
  cases fuel with
  | zero => simp [parseStatements] at h
  | succ f =>
    unfold parseStatements at h
    cases hsk : skipNewlines f {} p with
    | error fe => rw [hsk] at h; exact Except.noConfusion h
    | ok trip =>
      obtain ⟨res, p1, cnt⟩ := trip
      rw [hsk] at h
      dsimp only at h
      cases hps : parseStatement f st p1 with
      | error fe => rw [hps] at h; exact Except.noConfusion h
      | ok pr =>
        obtain ⟨child, p2⟩ := pr
        rw [hps] at h
        dsimp only [PResT.registerFrom] at h
        by_cases hre : (if child.error.isSome then child.error
            else res.error).isSome = true
        · rw [if_pos hre] at h
          simp only [Except.ok.injEq, Prod.mk.injEq] at h
          obtain ⟨h1, _⟩ := h
          subst h1
          dsimp only at he
          rw [he] at hre
          simp at hre
        · rw [if_neg hre] at h
          cases hcn : child.node with
          | none => rw [hcn] at h; exact Except.noConfusion h
          | some stmt =>
            rw [hcn] at h
            exact parseStatementsLoop_node _ _ _ _ _ _ _ _ h

theorem parseProgram_node (fuel : Nat) (st : Store) (p : PST)
    (res' : PRes) (p' : PST)
    (h : parseProgram fuel st p = .ok (res', p'))
    (he : res'.error = none) :
    ∃ l, res'.node = some (.arrayNode l) := by
  cases fuel with
  | zero => simp [parseProgram] at h
  | succ f =>
    have hu : parseProgram (f + 1) st p = (match parseStatements f st p with
        | .error fe => .error fe
        | .ok (res, p1) =>
          if res.error.isNone ∧ p1.cur.ty ≠ .EOF then
            .ok (res.fail (.invalidStx "Token cannot appear after previous tokens"),
              p1)
          else .ok (res, p1)) := rfl
    rw [hu] at h
    cases hps : parseStatements f st p with
    | error fe => rw [hps] at h; exact Except.noConfusion h
    | ok pr =>
      obtain ⟨res, p1⟩ := pr
      rw [hps] at h
      dsimp only at h
      by_cases hc : res.error.isNone ∧ p1.cur.ty ≠ .EOF
      · rw [if_pos hc] at h
        simp only [Except.ok.injEq, Prod.mk.injEq] at h
        obtain ⟨h1, _⟩ := h
        subst h1
        exfalso
        unfold PResT.fail at he
        rw [if_pos (Or.inl hc.1)] at he
        simp at he
      · rw [if_neg hc] at h
        simp only [Except.ok.injEq, Prod.mk.injEq] at h
        obtain ⟨h1, _⟩ := h
        subst h1
        exact parseStatements_node _ _ _ _ _ hps he

theorem visitArrayElems_inl (fuel : Nat) (l : List PNode) (ctx : Ctx)
    (st : Store) (res : RTResult) (acc : List (Option Value))
    (r : RTResult) (st' : Store)
    (h : visitArrayElems fuel l ctx st res acc = .ok (.inl (r, st'))) :
    r.value = res.value ∧ r.shouldReturn = .ok true := by
  induction fuel generalizing l st res acc r st' with
  | zero => simp [visitArrayElems] at h
  | succ f ih =>
    cases l with
    | nil => simp [visitArrayElems] at h
    | cons n rest =>
      unfold visitArrayElems at h
      cases hv : visit f n ctx st with
      | error fe => rw [hv] at h; exact Except.noConfusion h
      | ok pr =>
        obtain ⟨child, st1⟩ := pr
        rw [hv] at h
        dsimp only [RTResult.registerFrom] at h
        cases hsr : RTResult.shouldReturn { res with
            error := child.error
            funcReturnValue := child.funcReturnValue
            loopShouldContinue := child.loopShouldContinue
            loopShouldBreak := child.loopShouldBreak } with
        | error c => rw [hsr] at h; exact Except.noConfusion h
        | ok b =>
          rw [hsr] at h
          cases b with
          | true =>
            simp only [Except.ok.injEq, Sum.inl.injEq, Prod.mk.injEq] at h
            obtain ⟨h1, _⟩ := h
            subst h1
            exact ⟨rfl, hsr⟩
          | false =>
            exact ih rest st1 { res with
                error := child.error
                funcReturnValue := child.funcReturnValue
                loopShouldContinue := child.loopShouldContinue
                loopShouldBreak := child.loopShouldBreak }
              (acc ++ [child.value]) r st' h

theorem shouldReturn_cases (r : RTResult) (h : r.shouldReturn = .ok true) :
    r.error.isSome = true
    ∨ pyTruthyOpt r.funcReturnValue = .ok true
    ∨ r.loopShouldContinue = true
    ∨ r.loopShouldBreak = true := by
  unfold RTResult.shouldReturn at h
  by_cases he : r.error.isSome = true
  · exact Or.inl he
  · rw [if_neg he] at h
    cases hb : pyTruthyOpt r.funcReturnValue with
    | error c =>
      rw [hb] at h
      exact Except.noConfusion h
    | ok b =>
      cases b with
      | true => exact Or.inr (Or.inl rfl)
      | false =>
        rw [hb] at h
        simp only [Except.bind, bind, Bool.false_or, pure, Except.pure,
          Except.ok.injEq, Bool.or_eq_true] at h
        cases h with
        | inl hc => exact Or.inr (Or.inr (Or.inl hc))
        | inr hk => exact Or.inr (Or.inr (Or.inr hk))

theorem visit_arrayNode_cases (fuel : Nat) (l : List PNode) (ctx : Ctx)
    (st : Store) (r : RTResult) (st' : Store)
    (h : visit fuel (.arrayNode l) ctx st = .ok (r, st')) :
    ((∃ w, r.value = some w) ∧ r.error = none)
    ∨ (r.value = none ∧ r.error.isSome = true)
    ∨ (r.value = none ∧ r.error = none ∧
        (pyTruthyOpt r.funcReturnValue = .ok true
         ∨ r.loopShouldContinue = true
         ∨ r.loopShouldBreak = true)) := by
  cases fuel with
  | zero => simp [visit] at h
  | succ f =>
    have hu : visit (f + 1) (.arrayNode l) ctx st
        = (match visitArrayElems f l ctx st {} [] with
          | .error fe => .error fe
          | .ok (.inl (res, st1)) => .ok (res, st1)
          | .ok (.inr (_, vals, st1)) =>
            let (a, st2) := st1.allocArray vals
            .ok (RTResult.success (some (.arr a)), st2)) := rfl
    rw [hu] at h
    replace h := h.symm
    cases hva : visitArrayElems f l ctx st {} [] with
    | error fe => rw [hva] at h; exact Except.noConfusion h.symm
    | ok out =>
      rw [hva] at h
      cases out with
      | inl pr =>
        obtain ⟨res, st1⟩ := pr
        simp only [Except.ok.injEq, Prod.mk.injEq] at h
        obtain ⟨rfl, rfl⟩ := h
        obtain ⟨hval, hsr⟩ := visitArrayElems_inl f l ctx st {} [] r st' hva
        by_cases he : r.error.isSome = true
        · exact Or.inr (Or.inl ⟨hval, he⟩)
        · have hen : r.error = none := Option.not_isSome_iff_eq_none.mp he
          rcases shouldReturn_cases r hsr with h1 | hrest
          · exact absurd h1 he
          · exact Or.inr (Or.inr ⟨hval, hen, hrest⟩)
      | inr trip =>
        obtain ⟨res0, vals, st1⟩ := trip
        dsimp only at h
        simp only [Except.ok.injEq, Prod.mk.injEq] at h
        obtain ⟨rfl, rfl⟩ := h
        exact Or.inl ⟨⟨_, rfl⟩, rfl⟩

/-- C1 (amended): the pair `run` returns is not always one-sided.  For every
completing `run`, either the value is non-null and the error null, or the
value is null and the error non-null, or - the case the claim misses - both
are null: then the interpreter finished with an `RTResult` carrying no value
and no error but a pending truthy `func_return_value`, `loop_should_continue`
or `loop_should_break` signal escaping from a top-level `return`, `continue`
or `break`. -/
theorem C1_run_pair (fuel : Nat) (text : String) (st : Store)
    (v : Option Value) (e : Option PErr) (st' : Store)
    (h : runP fuel text st = .ok ((v, e), st')) :
    ((∃ w, v = some w) ∧ e = none)
    ∨ (v = none ∧ ∃ err, e = some err)
    ∨ (v = none ∧ e = none ∧
        ∃ r : RTResult, runFull fuel text st = .ok (.inl r, st')
          ∧ r.value = none ∧ r.error = none
          ∧ (pyTruthyOpt r.funcReturnValue = .ok true
             ∨ r.loopShouldContinue = true
             ∨ r.loopShouldBreak = true)) := by
  unfold runP at h
  cases hrf : runFull fuel text st with
  | error f => rw [hrf] at h; exact Except.noConfusion h
  | ok pr =>
    obtain ⟨sr, st1⟩ := pr
    rw [hrf] at h
    cases sr with
    | inr err =>
      dsimp only at h
      simp only [Except.ok.injEq, Prod.mk.injEq] at h
      obtain ⟨⟨hv, he⟩, hst⟩ := h
      subst hv
      subst he
      subst hst
      exact Or.inr (Or.inl ⟨rfl, err, rfl⟩)
    | inl r =>
      dsimp only at h
      simp only [Except.ok.injEq, Prod.mk.injEq] at h
      obtain ⟨⟨hv, he⟩, hst⟩ := h
      subst hv
      subst he
      subst hst
      cases fuel with
      | zero => simp [runFull] at hrf
      | succ f =>
        have hu : runFull (f + 1) text st
            = (match makeTokens f (LST.init text.data) st [] with
              | .error fe => .error fe
              | .ok (.inr pe, msto) => .ok (.inr pe, msto)
              | .ok (.inl toks, msto) =>
                match parseProgram f msto ⟨toks, 0⟩ with
                | .error fe => .error fe
                | .ok (pres, _) =>
                  match pres.error with
                  | some pe => .ok (.inr pe, msto)
                  | none =>
                    match pres.node with
                    | none =>
                      .error (.crash (.unmodelled "parse success holding no node"))
                    | some ast =>
                      match visit f ast (Ctx.mk "BASE_LEVEL_SCRIPT" none 1) msto with
                      | .error fe => .error fe
                      | .ok (r0, st2) => .ok (.inl r0, st2)) := rfl
        rw [hu] at hrf
        cases hmk : makeTokens f (LST.init text.data) st [] with
        | error fe => rw [hmk] at hrf; exact Except.noConfusion hrf
        | ok mpr =>
          obtain ⟨msum, msto⟩ := mpr
          rw [hmk] at hrf
          cases msum with
          | inr pe => simp at hrf
          | inl toks =>
            dsimp only at hrf
            cases hpp : parseProgram f msto ⟨toks, 0⟩ with
            | error fe => rw [hpp] at hrf; exact Except.noConfusion hrf
            | ok ppr =>
              obtain ⟨pres, pst⟩ := ppr
              rw [hpp] at hrf
              dsimp only at hrf
              cases hpe : pres.error with
              | some pe => rw [hpe] at hrf; simp at hrf
              | none =>
                rw [hpe] at hrf
                cases hpn : pres.node with
                | none => rw [hpn] at hrf; exact Except.noConfusion hrf
                | some ast =>
                  rw [hpn] at hrf
                  obtain ⟨l, hl⟩ := parseProgram_node f msto ⟨toks, 0⟩ pres pst hpp hpe
                  rw [hpn] at hl
                  obtain ⟨rfl⟩ := hl
                  dsimp only at hrf
                  cases hvis : visit f (.arrayNode l)
                      (Ctx.mk "BASE_LEVEL_SCRIPT" none 1) msto with
                  | error fe => rw [hvis] at hrf; exact Except.noConfusion hrf
                  | ok vpr =>
                    obtain ⟨r0, st2⟩ := vpr
                    rw [hvis] at hrf
                    simp only [Except.ok.injEq, Prod.mk.injEq, Sum.inl.injEq] at hrf
                    obtain ⟨hr0, hst2⟩ := hrf
                    subst hr0
                    subst hst2
                    rcases visit_arrayNode_cases f l
                        (Ctx.mk "BASE_LEVEL_SCRIPT" none 1) msto r0 st2 hvis with
                      hcase | hcase | hcase
                    · exact Or.inl hcase
                    · obtain ⟨hvn, hes⟩ := hcase
                      obtain ⟨err, herr⟩ := Option.isSome_iff_exists.mp hes
                      exact Or.inr (Or.inl ⟨hvn, err, herr⟩)
                    · obtain ⟨hvn, hen, hsig⟩ := hcase
                      exact Or.inr (Or.inr ⟨hvn, hen, r0, rfl, hvn, hen, hsig⟩)

/-- Witness for C1_run_pair: the top-level `break` program completes with
both components null, landing in the third (both-null, pending-signal)
case. -/
theorem C1_witness :
    ((∃ w, (none : Option Value) = some w) ∧ (none : Option PErr) = none)
    ∨ ((none : Option Value) = none ∧ ∃ err, (none : Option PErr) = some err)
    ∨ ((none : Option Value) = none ∧ (none : Option PErr) = none ∧
        ∃ r : RTResult, runFull 50 "break" initStore = .ok (.inl r, initStore)
          ∧ r.value = none ∧ r.error = none
          ∧ (pyTruthyOpt r.funcReturnValue = .ok true
             ∨ r.loopShouldContinue = true
             ∨ r.loopShouldBreak = true)) :=
  C1_run_pair 50 "break" initStore none none initStore rfl

end PeanutEmbed
